import Mathlib

/-!
# StereoKit hand input: a shallow embedding of `input_hand.cpp`

The C++ `float` is modelled by exact rationals, so every definition below is
computable and every comparison is decidable.  Fixed-size arrays `T[5][5]` are
functions `Fin 5 → Fin 5 → T`; a loop that writes every cell of such an array
independently is the function giving the value written to each cell.  The
`input_state_` bitset is a natural number handled with `&&&` and `|||`, as in
the source.  Global variables are fields of `globals`, and each C function is
a function `globals → globals`.
-/

namespace sk

/-! ## Constants of `input_hand.cpp` -/

/-- The macro `SK_FINGERS`. -/
def SK_FINGERS : Nat := 5

/-- The macro `SK_FINGERJOINTS`. -/
def SK_FINGERJOINTS : Nat := 5

/-- The macro `SK_SQRT2`. -/
def SK_SQRT2 : ℚ := 1.41421356237

/-- The macro `SK_FINGER_SOLIDS`. -/
def SK_FINGER_SOLIDS : Nat := 1

/-! ## Types and helpers declared in `stereokit.h` -/

/-- Modelled from the spec: `vec3` is declared in stereokit.h; a 3D point with
three scalar components. -/
structure vec3 where
  x : ℚ
  y : ℚ
  z : ℚ
  deriving DecidableEq, Repr

/-- Modelled from the spec: `quat` is declared in stereokit.h; a rotation with
four scalar components, `w` being the real part. -/
structure quat where
  x : ℚ
  y : ℚ
  z : ℚ
  w : ℚ
  deriving DecidableEq, Repr

/-- Modelled from the spec: `pose_t` is declared in stereokit.h; position and
orientation. -/
structure pose_t where
  position : vec3
  orientation : quat
  deriving DecidableEq, Repr

/-- Modelled from the spec: `hand_joint_t` is declared in stereokit.h; a joint
has a position, an orientation and a scalar radius. -/
structure hand_joint_t where
  position : vec3
  orientation : quat
  size : ℚ
  deriving DecidableEq, Repr

/-- Modelled from the spec: `handed_` is declared in stereokit.h; left is 0 and
right is 1. -/
inductive handed_ where
  | handed_left
  | handed_right
  deriving DecidableEq, Repr

export handed_ (handed_left handed_right)

/-- Modelled from the spec: the `hand_finger_` enum of stereokit.h; fingers are
indexed thumb, index, middle, ring, little. -/
def hand_finger_thumb : Fin 5 := 0

/-- Modelled from the spec: the index finger of the `hand_finger_` enum. -/
def hand_finger_index : Fin 5 := 1

/-- Modelled from the spec: the middle finger of the `hand_finger_` enum. -/
def hand_finger_middle : Fin 5 := 2

/-- Modelled from the spec: the ring finger of the `hand_finger_` enum. -/
def hand_finger_ring : Fin 5 := 3

/-- Modelled from the spec: the little finger of the `hand_finger_` enum. -/
def hand_finger_little : Fin 5 := 4

/-- Modelled from the spec: the `hand_joint_` enum of stereokit.h; joints run
from the metacarpal (0) to the tip (4). -/
def hand_joint_metacarpal : Fin 5 := 0

/-- Modelled from the spec: the tip, last joint of the `hand_joint_` enum. -/
def hand_joint_tip : Fin 5 := 4

/-- Modelled from the spec: `cm2m` is a macro of stereokit.h converting
centimetres to metres (the spec's 2cm and 4cm thresholds). -/
def cm2m : ℚ := 0.01

/-- Modelled from the spec: the `input_state_` enum of stereokit.h; nine
independent flags, one bit each. -/
def input_state_tracked : Nat := 1 <<< 0

/-- Modelled from the spec: the just-tracked flag of the `input_state_` enum. -/
def input_state_justtracked : Nat := 1 <<< 1

/-- Modelled from the spec: the untracked flag of the `input_state_` enum. -/
def input_state_untracked : Nat := 1 <<< 2

/-- Modelled from the spec: the pinch flag of the `input_state_` enum. -/
def input_state_pinch : Nat := 1 <<< 3

/-- Modelled from the spec: the just-pinch flag of the `input_state_` enum. -/
def input_state_justpinch : Nat := 1 <<< 4

/-- Modelled from the spec: the un-pinch flag of the `input_state_` enum. -/
def input_state_unpinch : Nat := 1 <<< 5

/-- Modelled from the spec: the grip flag of the `input_state_` enum. -/
def input_state_grip : Nat := 1 <<< 6

/-- Modelled from the spec: the just-grip flag of the `input_state_` enum. -/
def input_state_justgrip : Nat := 1 <<< 7

/-- Modelled from the spec: the un-grip flag of the `input_state_` enum. -/
def input_state_ungrip : Nat := 1 <<< 8

/-- The C conversion `bool b = state & flag;`. -/
def has_flag (state flag : Nat) : Bool := (state &&& flag) != 0

/-- Modelled from the spec: `vec3 - vec3` of stereokit.h, componentwise. -/
def vec3.sub (a b : vec3) : vec3 := ⟨a.x - b.x, a.y - b.y, a.z - b.z⟩

/-- Modelled from the spec: `vec3 + vec3` of stereokit.h, componentwise. -/
def vec3.add (a b : vec3) : vec3 := ⟨a.x + b.x, a.y + b.y, a.z + b.z⟩

/-- Modelled from the spec: `vec3 * float` of stereokit.h, componentwise. -/
def vec3.scale (a : vec3) (s : ℚ) : vec3 := ⟨a.x * s, a.y * s, a.z * s⟩

/-- Modelled from the spec: unary minus of a `vec3`, componentwise. -/
def vec3.neg (a : vec3) : vec3 := ⟨-a.x, -a.y, -a.z⟩

instance : Sub vec3 := ⟨vec3.sub⟩
instance : Add vec3 := ⟨vec3.add⟩
instance : Neg vec3 := ⟨vec3.neg⟩
instance : HMul vec3 ℚ vec3 := ⟨vec3.scale⟩

/-- Modelled from the spec: `vec3_magnitude_sq` of stereokit.h, the squared
length of a vector (the spec's squared distance). -/
def vec3_magnitude_sq (a : vec3) : ℚ := a.x * a.x + a.y * a.y + a.z * a.z

/-- Modelled from the spec: `hand_t` of stereokit.h, restricted to the fields
`input_hand.cpp` touches: joints, palm pose, state bitset, handedness. -/
structure hand_t where
  fingers : Fin 5 → Fin 5 → hand_joint_t
  palm : pose_t
  state : Nat
  handedness : handed_

/-! ## Gesture detection: `input_hand_state_update` -/

/-- The local `is_trigger` of `input_hand_state_update`. -/
def is_trigger (hand : hand_t) : Bool :=
  let finger_dist : ℚ := 2 * cm2m
    + (hand.fingers hand_finger_index hand_joint_tip).size
    + (hand.fingers hand_finger_thumb hand_joint_tip).size
  decide (vec3_magnitude_sq
      ((hand.fingers hand_finger_index hand_joint_tip).position
        - (hand.fingers hand_finger_thumb hand_joint_tip).position)
    < finger_dist * finger_dist)

/-- The local `is_grip` of `input_hand_state_update`. -/
def is_grip (hand : hand_t) : Bool :=
  decide (vec3_magnitude_sq
      ((hand.fingers hand_finger_index hand_joint_tip).position
        - (hand.fingers hand_finger_index hand_joint_metacarpal).position)
    < (4 * cm2m) * (4 * cm2m)) &&
  decide (vec3_magnitude_sq
      ((hand.fingers hand_finger_middle hand_joint_tip).position
        - (hand.fingers hand_finger_middle hand_joint_metacarpal).position)
    < (4 * cm2m) * (4 * cm2m))

/-- The state bits `input_hand_state_update` leaves, from the previous bits and
the two tests. -/
def gesture_state (state : Nat) (is_trigger is_grip : Bool) : Nat :=
  let was_trigger := has_flag state input_state_pinch
  let was_gripped := has_flag state input_state_grip
  -- Clear all except tracking state
  let s0 := state &&&
    (input_state_tracked ||| input_state_untracked ||| input_state_justtracked)
  let s1 := if was_trigger != is_trigger
    then s0 ||| (if is_trigger then input_state_justpinch else input_state_unpinch) else s0
  let s2 := if was_gripped != is_grip
    then s1 ||| (if is_grip then input_state_justgrip else input_state_ungrip) else s1
  let s3 := if is_trigger then s2 ||| input_state_pinch else s2
  if is_grip then s3 ||| input_state_grip else s3

/-- The body of `input_hand_state_update`, acting on `hand_state[handedness].info`. -/
def hand_state_update (hand : hand_t) : hand_t :=
  { hand with state := gesture_state hand.state (is_trigger hand) (is_grip hand) }

/-! ## Pose blending and skeleton projection: `input_hand_sim` -/

/-- Modelled from the spec: `quat * quat` of stereokit.h, the product of two
rotations (Hamilton's convention, `w` real). -/
def quat.mul (a b : quat) : quat :=
  ⟨a.w * b.x + a.x * b.w + a.y * b.z - a.z * b.y,
   a.w * b.y - a.x * b.z + a.y * b.w + a.z * b.x,
   a.w * b.z + a.x * b.y - a.y * b.x + a.z * b.w,
   a.w * b.w - a.x * b.x - a.y * b.y - a.z * b.z⟩

/-- Modelled from the spec: the conjugate of a quaternion. -/
def quat.conj (q : quat) : quat := ⟨-q.x, -q.y, -q.z, q.w⟩

/-- Modelled from the spec: `quat * vec3` of stereokit.h, the vector rotated by
the quaternion: the vector part of `q * (v, 0) * conj q`. -/
def quat.rotate (q : quat) (v : vec3) : vec3 :=
  let r := quat.mul (quat.mul q ⟨v.x, v.y, v.z, 0⟩) (quat.conj q)
  ⟨r.x, r.y, r.z⟩

instance : Mul quat := ⟨quat.mul⟩
instance : HMul quat vec3 vec3 := ⟨quat.rotate⟩

/-- Modelled from the spec: `vec3_lerp` of stereokit.h, linear interpolation
from `a` toward `b` by factor `t`. -/
def vec3_lerp (a b : vec3) (t : ℚ) : vec3 := a + (b - a) * t

/-- Modelled from the spec: `quat_identity` of stereokit.h. -/
def quat_identity : quat := ⟨0, 0, 0, 1⟩

/-- Modelled from the spec: `vec3_zero` of stereokit.h. -/
def vec3_zero : vec3 := ⟨0, 0, 0⟩

/-- Modelled from the spec: `vec3_right` of stereokit.h, the world unit-right vector. -/
def vec3_right : vec3 := ⟨1, 0, 0⟩

/-- Modelled from the spec: `vec3_up` of stereokit.h, the world unit-up vector. -/
def vec3_up : vec3 := ⟨0, 1, 0⟩

/-- `hand_joint_size`, in order of `hand_joint_`. -/
def hand_joint_size : Fin 5 → ℚ := ![0.01, 0.026, 0.023, 0.02, 0.015]

/-- `hand_finger_size`, in order of `hand_finger_`. -/
def hand_finger_size : Fin 5 → ℚ := ![1.15, 1, 1, 0.85, 0.75]

/-- Modelled from the spec: `vec2` of stereokit.h. -/
structure vec2 where
  x : ℚ
  y : ℚ
  deriving DecidableEq, Repr

/-- Modelled from the spec: `color32` of stereokit.h, four 8-bit channels. -/
structure color32 where
  r : Nat
  g : Nat
  b : Nat
  a : Nat
  deriving DecidableEq, Repr

/-- Modelled from the spec: `vert_t` of stereokit.h: position, normal, texture
coordinate and colour of one vertex. -/
structure vert_t where
  pos : vec3
  norm : vec3
  uv : vec2
  col : color32
  deriving DecidableEq, Repr

/-- Modelled from the spec: the rendering collaborator's mesh object, reduced
to what `input_hand_update_mesh` hands to it: an id, the index data submitted
by `mesh_set_inds` and the vertex data submitted by `mesh_set_verts`. -/
structure mesh_t where
  id : String
  inds : List Nat
  verts : List vert_t
  deriving DecidableEq, Repr

/-- The struct `hand_mesh_t`; a null pointer is `none`, a buffer is the list of
its cells. -/
structure hand_mesh_t where
  mesh : Option mesh_t
  verts : Option (List vert_t)
  vert_count : Nat
  inds : Option (List Nat)
  ind_count : Nat
  deriving DecidableEq, Repr

/-- The struct `hand_state_t`; the physics solids and the material are handles
of collaborators and are left out. -/
structure hand_state_t where
  info : hand_t
  pose_blend : Fin 5 → Fin 5 → pose_t
  mesh : hand_mesh_t
  visible : Bool
  enabled : Bool

/-- The global variables: `hand_state[2]` of input_hand.cpp and the four pose
tables of input_hand_poses.h. A table `pose_t t[5][5]` read through
`&t[0][0]` at `f * 5 + j` is read at `t f j`. -/
structure globals where
  hand_state : handed_ → hand_state_t
  input_pose_fist : Fin 5 → Fin 5 → pose_t
  input_pose_neutral : Fin 5 → Fin 5 → pose_t
  input_pose_point : Fin 5 → Fin 5 → pose_t
  input_pose_pinch : Fin 5 → Fin 5 → pose_t

/-- Assignment to `hand_state[hand]`. -/
def globals.set_hand (g : globals) (hand : handed_) (hs : hand_state_t) : globals :=
  { g with hand_state := fun i => if i = hand then hs else g.hand_state i }

/-- The function `input_hand`. -/
def input_hand (g : globals) (hand : handed_) : hand_t := (g.hand_state hand).info

/-- The function `input_hand_state_update`. -/
def input_hand_state_update (g : globals) (handedness : handed_) : globals :=
  g.set_hand handedness
    { g.hand_state handedness with info := hand_state_update (g.hand_state handedness).info }

/-- The pose table `dest_pose` points at after the if-chain of `input_hand_sim`. -/
def dest_pose (g : globals) (trigger_pressed grip_pressed : Bool) : Fin 5 → Fin 5 → pose_t :=
  if trigger_pressed && !grip_pressed then g.input_pose_pinch
  else if trigger_pressed && grip_pressed then g.input_pose_fist
  else if !trigger_pressed && grip_pressed then g.input_pose_point
  else g.input_pose_neutral

/-- The blend factor: `delta = time_elapsedf_unscaled() * 30; delta = delta>1?1:delta`. -/
def blend_delta (time_elapsedf_unscaled : ℚ) : ℚ :=
  let delta := time_elapsedf_unscaled * 30
  if delta > 1 then 1 else delta

/-- The first double loop of `input_hand_sim`: every cell of `pose_blend` is
moved toward the same cell of the target table. -/
def blend_step (quat_slerp : quat → quat → ℚ → quat) (pose_blend dest : Fin 5 → Fin 5 → pose_t)
    (delta : ℚ) : Fin 5 → Fin 5 → pose_t :=
  fun f j =>
    { position := vec3_lerp (pose_blend f j).position (dest f j).position delta
      orientation := quat_slerp (pose_blend f j).orientation (dest f j).orientation delta }

/-- The body of the second double loop of `input_hand_sim` for one joint. -/
def project_joint (handedness : handed_) (hand_pos : vec3) (orientation : quat)
    (finger : Fin 5 → pose_t) (f j : Fin 5) : hand_joint_t :=
  let pos := (finger j).position
  let rot := (finger j).orientation
  -- mirror along x axis, our pose data is for left hand
  let pos := if handedness = handed_right then { pos with x := -pos.x } else pos
  let rot := if handedness = handed_right then { rot with y := -rot.y, z := -rot.z } else rot
  { position := orientation * pos + hand_pos
    orientation := rot * orientation
    size := hand_finger_size f * hand_joint_size j * 0.25 }

/-- The state bits `input_hand_sim` leaves, from the previous bits and the
`tracked` argument. -/
def tracked_state (state : Nat) (tracked : Bool) : Nat :=
  let was_tracked := has_flag state input_state_tracked
  let s1 := if was_tracked != tracked
    then state ||| (if tracked then input_state_justtracked else input_state_untracked)
    else state
  if tracked then s1 ||| input_state_tracked else s1

/-- The function `input_hand_sim`. The two collaborators it calls,
`quat_slerp` and `time_elapsedf_unscaled()`, are parameters. -/
def input_hand_sim (quat_slerp : quat → quat → ℚ → quat) (time_elapsedf_unscaled : ℚ)
    (g : globals) (handedness : handed_) (hand_pos : vec3) (orientation : quat)
    (tracked trigger_pressed grip_pressed : Bool) : globals :=
  let hs := g.hand_state handedness
  let hand : hand_t := { hs.info with palm := ⟨hand_pos, orientation⟩ }
  -- Update hand state based on inputs
  let hand : hand_t := { hand with state := tracked_state hand.state tracked }
  -- only sim it if it's tracked
  if tracked then
    let pose_blend := blend_step quat_slerp hs.pose_blend
      (dest_pose g trigger_pressed grip_pressed) (blend_delta time_elapsedf_unscaled)
    let fingers : Fin 5 → Fin 5 → hand_joint_t :=
      fun f j => project_joint handedness hand_pos orientation (pose_blend f) f j
    g.set_hand handedness
      { hs with info := { hand with fingers := fingers }, pose_blend := pose_blend }
  else
    g.set_hand handedness { hs with info := hand }

/-- A stand-in for the `quat_slerp` parameter where a concrete interpolation is
needed: componentwise linear interpolation from `a` toward `b`. -/
def quat_lerp (a b : quat) (t : ℚ) : quat :=
  ⟨a.x + (b.x - a.x) * t, a.y + (b.y - a.y) * t, a.z + (b.z - a.z) * t,
   a.w + (b.w - a.w) * t⟩

/-- The mirror image of a position: first coordinate negated. -/
def mirror_pos (p : vec3) : vec3 := ⟨-p.x, p.y, p.z⟩

/-- The mirror image of an orientation: second and third components negated. -/
def mirror_rot (q : quat) : quat := ⟨q.x, -q.y, -q.z, q.w⟩

/-! ## Tube mesh: `input_hand_update_mesh` -/

/-- Modelled from the spec: `malloc` of an index buffer of `n` cells; the
uninitialised cells are modelled as zero. -/
def malloc_inds (n : Nat) : List Nat := List.replicate n 0

/-- Modelled from the spec: `malloc` of a vertex buffer of `n` cells; the
uninitialised cells are modelled as zero. -/
def malloc_verts (n : Nat) : List vert_t :=
  List.replicate n ⟨vec3_zero, vec3_zero, ⟨0, 0⟩, ⟨0, 0, 0, 0⟩⟩

/-- Modelled from the spec: `mesh_create` of the rendering collaborator. -/
def mesh_create : mesh_t := ⟨"", [], []⟩

/-- Modelled from the spec: `mesh_set_id` of the rendering collaborator. -/
def mesh_set_id (m : mesh_t) (id : String) : mesh_t := { m with id := id }

/-- Modelled from the spec: `mesh_set_inds` of the rendering collaborator, which
takes the first `count` cells of the index buffer. -/
def mesh_set_inds (m : mesh_t) (inds : List Nat) (count : Nat) : mesh_t :=
  { m with inds := inds.take count }

/-- Modelled from the spec: `mesh_set_verts` of the rendering collaborator,
which takes the first `count` cells of the vertex buffer. -/
def mesh_set_verts (m : mesh_t) (verts : List vert_t) (count : Nat) : mesh_t :=
  { m with verts := verts.take count }

/-- One statement `data.inds[ind++] = v;` on the pair (buffer, cursor `ind`). -/
def put_ind (st : List Nat × Nat) (v : Nat) : List Nat × Nat :=
  (st.1.set st.2 v, st.2 + 1)

/-- The body of the tube-face loops for ring `j` and corner `c`. -/
def tube_face (start_vert : Nat) (st : List Nat × Nat) (j c : Nat) : List Nat × Nat :=
  let curr1 := start_vert + j * 4 + c
  let next1 := start_vert + (j + 1) * 4 + c
  let curr2 := start_vert + j * 4 + (c + 1) % 4
  let next2 := start_vert + (j + 1) * 4 + (c + 1) % 4
  let st := put_ind st curr1
  let st := put_ind st next1
  let st := put_ind st next2
  let st := put_ind st curr1
  let st := put_ind st next2
  put_ind st curr2

/-- The body of the index loop for finger `f`: start cap, tube faces, end cap. -/
def finger_inds (st : List Nat × Nat) (f : Nat) : List Nat × Nat :=
  let start_vert := f * 4 * SK_FINGERJOINTS
  let end_vert := (f + 1) * 4 * SK_FINGERJOINTS
  -- start cap
  let st := put_ind st (start_vert + 0)
  let st := put_ind st (start_vert + 1)
  let st := put_ind st (start_vert + 2)
  let st := put_ind st (start_vert + 0)
  let st := put_ind st (start_vert + 2)
  let st := put_ind st (start_vert + 3)
  -- tube faces
  let st := (List.range (SK_FINGERJOINTS - 1)).foldl
    (fun st j => (List.range 4).foldl (fun st c => tube_face start_vert st j c) st) st
  -- end cap
  let st := put_ind st (end_vert - 2)
  let st := put_ind st (end_vert - 3)
  let st := put_ind st (end_vert - 4)
  let st := put_ind st (end_vert - 1)
  let st := put_ind st (end_vert - 2)
  put_ind st (end_vert - 4)

/-- The index loop over all fingers, from cursor `ind = 0`. -/
def build_inds (inds : List Nat) : List Nat × Nat :=
  (List.range SK_FINGERS).foldl finger_inds (inds, 0)

/-- The statements `data.verts[v].uv = uv; data.verts[v].col = col; v++;` on the
pair (buffer, cursor `v`). -/
def put_uv_col (st : List vert_t × Nat) (uv : vec2) (col : color32) : List vert_t × Nat :=
  (st.1.modify (fun vt => { vt with uv := uv, col := col }) st.2, st.2 + 1)

/-- The body of the uv and colour loops for finger `f` and joint `j`. -/
def uv_col_joint (st : List vert_t × Nat) (f j : Nat) : List vert_t × Nat :=
  let y : ℚ := if f = 0
    then max (0 : ℚ) (((j : ℤ) - 1 : ℤ) : ℚ) / ((SK_FINGERJOINTS - 2 : ℕ) : ℚ)
    else (j : ℚ) / ((SK_FINGERJOINTS - 1 : ℕ) : ℚ)
  let st := put_uv_col st ⟨0, y⟩ ⟨255, 255, 255, 255⟩
  let st := put_uv_col st ⟨0.5, y⟩ ⟨255, 255, 255, 255⟩
  let st := put_uv_col st ⟨1, y⟩ ⟨255, 255, 255, 255⟩
  put_uv_col st ⟨0.5, y⟩ ⟨255, 255, 255, 255⟩

/-- The uv and colour loops over all fingers and joints, from cursor `v = 0`. -/
def build_uv_col (verts : List vert_t) : List vert_t × Nat :=
  (List.range SK_FINGERS).foldl
    (fun st f => (List.range SK_FINGERJOINTS).foldl (fun st j => uv_col_joint st f j) st)
    (verts, 0)

/-- The statements `data.verts[v].norm = n; data.verts[v].pos = center + n*scale;
v++;` on the pair (buffer, cursor `v`). -/
def put_ring_vert (st : List vert_t × Nat) (center n : vec3) (scale : ℚ) : List vert_t × Nat :=
  (st.1.modify (fun vt => { vt with norm := n, pos := center + n * scale }) st.2, st.2 + 1)

/-- The body of the per-frame loops for finger `f` and joint `j`. -/
def ring_joint (fingers : Fin 5 → Fin 5 → hand_joint_t) (st : List vert_t × Nat)
    (f j : Fin 5) : List vert_t × Nat :=
  let pose := fingers f j
  -- Make local right and up axis vectors
  let right : vec3 := pose.orientation * vec3_right
  let up : vec3 := pose.orientation * vec3_up
  -- Find the scale for this joint
  let scale := pose.size
  let scale := if f.val = 0 ∧ j.val < 2 then scale * 0.5 else scale
  -- Use the local axis to create a ring of verts
  let st := put_ring_vert st pose.position ((up - right) * SK_SQRT2) scale
  let st := put_ring_vert st pose.position ((right + up) * SK_SQRT2) scale
  let st := put_ring_vert st pose.position ((right - up) * SK_SQRT2) scale
  put_ring_vert st pose.position ((-up - right) * SK_SQRT2) scale

/-- The per-frame loops over all fingers and joints, from cursor `v = 0`. -/
def build_rings (fingers : Fin 5 → Fin 5 → hand_joint_t) (verts : List vert_t) :
    List vert_t × Nat :=
  (List.finRange 5).foldl
    (fun st f => (List.finRange 5).foldl (fun st j => ring_joint fingers st f j) st)
    (verts, 0)

/-- The block of `input_hand_update_mesh` guarded by `data.verts == nullptr`. -/
def init_mesh (hand : handed_) (data : hand_mesh_t) : hand_mesh_t :=
  let vert_count := 4 * SK_FINGERJOINTS * SK_FINGERS
  let ind_count := (3 * 8 * (SK_FINGERJOINTS - 1) + (4 * 3)) * SK_FINGERS
  let verts := malloc_verts vert_count
  let inds := malloc_inds ind_count
  let inds := (build_inds inds).1
  -- Generate uvs and colors for the mesh
  let verts := (build_uv_col verts).1
  let mesh := mesh_create
  let mesh := if hand = handed_left
    then mesh_set_id mesh "default/mesh_lefthand"
    else mesh_set_id mesh "default/mesh_righthand"
  let mesh := mesh_set_inds mesh inds ind_count
  { data with
    vert_count := vert_count, ind_count := ind_count,
    verts := some verts, inds := some inds, mesh := some mesh }

/-- The function `input_hand_update_mesh`. -/
def input_hand_update_mesh (g : globals) (hand : handed_) : globals :=
  let hs := g.hand_state hand
  let data := hs.mesh
  -- if this mesh hasn't been initialized yet
  let data := if data.verts = none then init_mesh hand data else data
  let verts := (build_rings hs.info.fingers (data.verts.getD [])).1
  -- And update the mesh vertices!
  let data := { data with
    verts := some verts,
    mesh := data.mesh.map (fun m => mesh_set_verts m verts data.vert_count) }
  g.set_hand hand { hs with mesh := data }

/-! ## The start state -/

/-- The zero-initialised global `hand_state[i]`: null buffers, zero counts. -/
def hand_state_zero : hand_state_t :=
  { info :=
      { fingers := fun _ _ => ⟨vec3_zero, ⟨0, 0, 0, 0⟩, 0⟩
        palm := ⟨vec3_zero, ⟨0, 0, 0, 0⟩⟩
        state := 0
        handedness := handed_left }
    pose_blend := fun _ _ => ⟨vec3_zero, ⟨0, 0, 0, 0⟩⟩
    mesh := ⟨none, none, 0, none, 0⟩
    visible := false
    enabled := false }

/-- A start state of the whole program: both hands zeroed, all tables zero. -/
def globals_zero : globals :=
  { hand_state := fun _ => hand_state_zero
    input_pose_fist := fun _ _ => ⟨vec3_zero, quat_identity⟩
    input_pose_neutral := fun _ _ => ⟨vec3_zero, quat_identity⟩
    input_pose_point := fun _ _ => ⟨vec3_zero, quat_identity⟩
    input_pose_pinch := fun _ _ => ⟨vec3_zero, quat_identity⟩ }

/-- A hand whose joints all sit at the origin with radius zero, except the index
tip, which sits at `(d, 0, 0)`; `state` is its state bitset. -/
def hand_with_tips_apart (d : ℚ) (state : Nat) : hand_t :=
  { fingers := fun f j =>
      if f = hand_finger_index ∧ j = hand_joint_tip
      then ⟨⟨d, 0, 0⟩, quat_identity, 0⟩ else ⟨vec3_zero, quat_identity, 0⟩
    palm := ⟨vec3_zero, quat_identity⟩
    state := state
    handedness := handed_left }

/-- The globals `g` with the hand record of `handedness` replaced by `hand`. -/
def globals.with_hand (g : globals) (handedness : handed_) (hand : hand_t) : globals :=
  g.set_hand handedness { g.hand_state handedness with info := hand }

/-- Later frames: for each joint array of `poses` in turn, the joints of the hand
are set to it and `input_hand_update_mesh` is called. -/
def later_mesh_updates (g : globals) (hand : handed_)
    (poses : List (Fin 5 → Fin 5 → hand_joint_t)) : globals :=
  poses.foldl
    (fun g fingers =>
      input_hand_update_mesh (g.with_hand hand { input_hand g hand with fingers := fingers }) hand)
    g

/-- The texture coordinate and colour of every vertex of a buffer, in order. -/
def uv_col_of (verts : Option (List vert_t)) : Option (List (vec2 × color32)) :=
  verts.map (fun vs => vs.map (fun v => (v.uv, v.col)))

/-- The `clamp(x, lo, hi)` of the specification: `x` limited to `[lo, hi]`. -/
def clamp (x lo hi : ℚ) : ℚ := max lo (min x hi)

/-! ## The write sequences of the mesh loops -/

/-- One statement `buf[cursor] = w (buf[cursor]); cursor++;` on the pair (buffer,
cursor): the common shape of `put_ind`, `put_uv_col` and `put_ring_vert`, with
`w` giving the new cell from the old one. -/
def put_write {α : Type} (st : List α × Nat) (w : α → α) : List α × Nat :=
  (st.1.modify w st.2, st.2 + 1)

/-- The values the six statements `data.inds[ind++] = ...` of one tube face
write, in order. -/
def tube_values (start_vert j c : Nat) : List Nat :=
  let curr1 := start_vert + j * 4 + c
  let next1 := start_vert + (j + 1) * 4 + c
  let curr2 := start_vert + j * 4 + (c + 1) % 4
  let next2 := start_vert + (j + 1) * 4 + (c + 1) % 4
  [curr1, next1, next2, curr1, next2, curr2]

/-- The values the statements `data.inds[ind++] = ...` write while the index
loop processes finger `f`, in order: start cap, tube faces, end cap. -/
def finger_values (f : Nat) : List Nat :=
  let start_vert := f * 4 * SK_FINGERJOINTS
  let end_vert := (f + 1) * 4 * SK_FINGERJOINTS
  [start_vert + 0, start_vert + 1, start_vert + 2, start_vert + 0, start_vert + 2,
    start_vert + 3]
  ++ (List.range (SK_FINGERJOINTS - 1)).flatMap
      (fun j => (List.range 4).flatMap (fun c => tube_values start_vert j c))
  ++ [end_vert - 2, end_vert - 3, end_vert - 4, end_vert - 1, end_vert - 2, end_vert - 4]

/-- The values the whole index loop writes, in order. -/
def index_values : List Nat := (List.range SK_FINGERS).flatMap finger_values

/-- The four cell updates of the uv and colour loops for finger `f` and joint
`j`, in order. -/
def uv_col_writes (f j : Nat) : List (vert_t → vert_t) :=
  let y : ℚ := if f = 0
    then max (0 : ℚ) (((j : ℤ) - 1 : ℤ) : ℚ) / ((SK_FINGERJOINTS - 2 : ℕ) : ℚ)
    else (j : ℚ) / ((SK_FINGERJOINTS - 1 : ℕ) : ℚ)
  [fun vt => { vt with uv := ⟨0, y⟩, col := ⟨255, 255, 255, 255⟩ },
   fun vt => { vt with uv := ⟨0.5, y⟩, col := ⟨255, 255, 255, 255⟩ },
   fun vt => { vt with uv := ⟨1, y⟩, col := ⟨255, 255, 255, 255⟩ },
   fun vt => { vt with uv := ⟨0.5, y⟩, col := ⟨255, 255, 255, 255⟩ }]

/-- The cell updates of the whole uv and colour loops, in order. -/
def all_uv_col_writes : List (vert_t → vert_t) :=
  (List.range SK_FINGERS).flatMap
    (fun f => (List.range SK_FINGERJOINTS).flatMap (fun j => uv_col_writes f j))

/-- The radius the per-frame loop uses for joint (f, j): the joint size, halved
for the thumb's joints 0 and 1. -/
def ring_scale (fingers : Fin 5 → Fin 5 → hand_joint_t) (f j : Fin 5) : ℚ :=
  if f.val = 0 ∧ j.val < 2 then (fingers f j).size * 0.5 else (fingers f j).size

/-- The four normals the per-frame loop stores for joint (f, j), in order. -/
def ring_normals (fingers : Fin 5 → Fin 5 → hand_joint_t) (f j : Fin 5) : List vec3 :=
  let right : vec3 := (fingers f j).orientation * vec3_right
  let up : vec3 := (fingers f j).orientation * vec3_up
  [(up - right) * SK_SQRT2, (right + up) * SK_SQRT2, (right - up) * SK_SQRT2,
   (-up - right) * SK_SQRT2]

/-- The four cell updates of the per-frame loops for joint (f, j), in order. -/
def ring_writes (fingers : Fin 5 → Fin 5 → hand_joint_t) (f j : Fin 5) :
    List (vert_t → vert_t) :=
  (ring_normals fingers f j).map (fun n => fun vt =>
    { vt with norm := n, pos := (fingers f j).position + n * ring_scale fingers f j })

/-- The cell updates of the whole per-frame loops, in order. -/
def all_ring_writes (fingers : Fin 5 → Fin 5 → hand_joint_t) : List (vert_t → vert_t) :=
  (List.finRange 5).flatMap
    (fun f => (List.finRange 5).flatMap (fun j => ring_writes fingers f j))

/-- The u coordinate the UV layout gives ring corner `k`: 0, 1/2, 1, 1/2. -/
def uv_u (k : Fin 4) : ℚ := ![0, 1 / 2, 1, 1 / 2] k

/-- The v coordinate the UV layout gives joint `j` of finger `f`: j / 4, and
max(0, j - 1) / 3 for the thumb (finger 0). -/
def uv_v (f j : Fin 5) : ℚ :=
  if f.val = 0 then max 0 ((j.val : ℚ) - 1) / 3 else (j.val : ℚ) / 4

/-- A hand whose 25 joints all sit at the origin with the identity orientation
and radius 1. -/
def hand_unit_joints : hand_t :=
  { fingers := fun _ _ => ⟨vec3_zero, quat_identity, 1⟩
    palm := ⟨vec3_zero, quat_identity⟩
    state := 0
    handedness := handed_left }

end sk

/-! ## Window resize: `win32_resize` of win32.cpp -/

/-- Modelled from the spec: the swap chain of the platform, reduced to the size
of its buffers, which `ResizeBuffers` sets. -/
structure swapchain_t where
  width : Nat
  height : Nat
  deriving DecidableEq, Repr

/-- The globals `win32_resize` touches: `d3d_screen_width` and
`d3d_screen_height` (declared in d3d.h) and `win32_swapchain`, a null pointer
being `none`. The render target is a handle of a collaborator and is left
out. -/
structure win32_globals where
  d3d_screen_width : Int
  d3d_screen_height : Int
  win32_swapchain : Option swapchain_t
  deriving DecidableEq, Repr

/-- The cast `(UINT)x` of an `int`. -/
def to_UINT (x : Int) : Nat := (x % 2 ^ 32).toNat

/-- The function `win32_resize`. -/
def win32_resize (s : win32_globals) (width height : Int) : win32_globals :=
  if width = s.d3d_screen_width ∨ height = s.d3d_screen_height then
    s
  else
    let s := { s with d3d_screen_width := width, d3d_screen_height := height }
    match s.win32_swapchain with
    | none => s
    | some _ =>
      { s with
        win32_swapchain := some ⟨to_UINT s.d3d_screen_width, to_UINT s.d3d_screen_height⟩ }

/-! # Theorems -/

namespace sk

/-! ## State bits -/

theorem has_flag_two_pow (s k : Nat) : has_flag s (2 ^ k) = s.testBit k := by
  unfold has_flag
  rw [Nat.and_two_pow]
  cases h : s.testBit k <;> simp

theorem input_state_tracked_eq : input_state_tracked = 2 ^ 0 := rfl
theorem input_state_justtracked_eq : input_state_justtracked = 2 ^ 1 := rfl
theorem input_state_untracked_eq : input_state_untracked = 2 ^ 2 := rfl
theorem input_state_pinch_eq : input_state_pinch = 2 ^ 3 := rfl
theorem input_state_justpinch_eq : input_state_justpinch = 2 ^ 4 := rfl
theorem input_state_unpinch_eq : input_state_unpinch = 2 ^ 5 := rfl
theorem input_state_grip_eq : input_state_grip = 2 ^ 6 := rfl
theorem input_state_justgrip_eq : input_state_justgrip = 2 ^ 7 := rfl
theorem input_state_ungrip_eq : input_state_ungrip = 2 ^ 8 := rfl

/-- Every flag of the state `input_hand_state_update` leaves, in terms of the
previous pinch and grip flags and the two tests. -/
theorem gesture_state_flags (s : Nat) (t g : Bool) :
    has_flag (gesture_state s t g) input_state_tracked = has_flag s input_state_tracked ∧
    has_flag (gesture_state s t g) input_state_justtracked
      = has_flag s input_state_justtracked ∧
    has_flag (gesture_state s t g) input_state_untracked = has_flag s input_state_untracked ∧
    has_flag (gesture_state s t g) input_state_pinch = t ∧
    has_flag (gesture_state s t g) input_state_justpinch
      = ((has_flag s input_state_pinch != t) && t) ∧
    has_flag (gesture_state s t g) input_state_unpinch
      = ((has_flag s input_state_pinch != t) && !t) ∧
    has_flag (gesture_state s t g) input_state_grip = g ∧
    has_flag (gesture_state s t g) input_state_justgrip
      = ((has_flag s input_state_grip != g) && g) ∧
    has_flag (gesture_state s t g) input_state_ungrip
      = ((has_flag s input_state_grip != g) && !g) := by
  simp only [gesture_state, input_state_tracked_eq, input_state_justtracked_eq,
    input_state_untracked_eq, input_state_pinch_eq, input_state_justpinch_eq,
    input_state_unpinch_eq, input_state_grip_eq, input_state_justgrip_eq,
    input_state_ungrip_eq, has_flag_two_pow]
  cases t <;> cases g <;> cases h3 : s.testBit 3 <;> cases h6 : s.testBit 6 <;>
    cases h0 : s.testBit 0 <;> cases h1 : s.testBit 1 <;> cases h2 : s.testBit 2 <;>
    simp +decide [Nat.testBit_or, Nat.testBit_and, h0, h1, h2, h3, h6, -Nat.testBit_zero]

/-! ## Globals -/

@[simp] theorem input_hand_set_hand (g : globals) (h : handed_) (hs : hand_state_t) :
    input_hand (g.set_hand h hs) h = hs.info := by
  simp [input_hand, globals.set_hand]

@[simp] theorem hand_state_set_hand (g : globals) (h : handed_) (hs : hand_state_t) :
    (g.set_hand h hs).hand_state h = hs := by
  simp [globals.set_hand]

theorem input_hand_state_update_info (g : globals) (h : handed_) :
    input_hand (input_hand_state_update g h) h = hand_state_update (input_hand g h) := by
  simp [input_hand_state_update, input_hand]

@[simp] theorem input_hand_with_hand (g : globals) (h : handed_) (hand : hand_t) :
    input_hand (g.with_hand h hand) h = hand := by
  simp [globals.with_hand]

theorem is_trigger_iff (hand : hand_t) :
    is_trigger hand = true ↔
      vec3_magnitude_sq ((hand.fingers hand_finger_index hand_joint_tip).position
          - (hand.fingers hand_finger_thumb hand_joint_tip).position)
        < (0.02 + (hand.fingers hand_finger_index hand_joint_tip).size
            + (hand.fingers hand_finger_thumb hand_joint_tip).size) ^ 2 := by
  have h : (2 * cm2m : ℚ) = 0.02 := by norm_num [cm2m]
  simp only [is_trigger, decide_eq_true_eq, h, sq]

theorem is_grip_iff (hand : hand_t) :
    is_grip hand = true ↔
      (vec3_magnitude_sq ((hand.fingers hand_finger_index hand_joint_tip).position
          - (hand.fingers hand_finger_index hand_joint_metacarpal).position) < 0.04 ^ 2 ∧
       vec3_magnitude_sq ((hand.fingers hand_finger_middle hand_joint_tip).position
          - (hand.fingers hand_finger_middle hand_joint_metacarpal).position) < 0.04 ^ 2) := by
  have h : (4 * cm2m : ℚ) = 0.04 := by norm_num [cm2m]
  simp only [is_grip, Bool.and_eq_true, decide_eq_true_eq, h, sq]

/-! ## Gesture detector -/

/-- C1: after `input_hand_state_update` the pinch flag is set iff the squared
distance between index tip and thumb tip is below `(0.02 + sizes)^2`, the grip
flag is set iff both tip-to-metacarpal squared distances are below `0.04^2`,
and any two global states whose joints agree get the same steady flags, whatever
their previous state bits were. -/
theorem input_hand_state_update_steady_flags (g : globals) (handedness : handed_) :
    (has_flag (input_hand (input_hand_state_update g handedness) handedness).state
        input_state_pinch = true ↔
      vec3_magnitude_sq
          (((input_hand g handedness).fingers hand_finger_index hand_joint_tip).position
            - ((input_hand g handedness).fingers hand_finger_thumb hand_joint_tip).position)
        < (0.02 + ((input_hand g handedness).fingers hand_finger_index hand_joint_tip).size
            + ((input_hand g handedness).fingers hand_finger_thumb hand_joint_tip).size) ^ 2) ∧
    (has_flag (input_hand (input_hand_state_update g handedness) handedness).state
        input_state_grip = true ↔
      (vec3_magnitude_sq
          (((input_hand g handedness).fingers hand_finger_index hand_joint_tip).position
            - ((input_hand g handedness).fingers hand_finger_index
                hand_joint_metacarpal).position) < 0.04 ^ 2 ∧
       vec3_magnitude_sq
          (((input_hand g handedness).fingers hand_finger_middle hand_joint_tip).position
            - ((input_hand g handedness).fingers hand_finger_middle
                hand_joint_metacarpal).position) < 0.04 ^ 2)) ∧
    (∀ g2 : globals,
      (input_hand g2 handedness).fingers = (input_hand g handedness).fingers →
      has_flag (input_hand (input_hand_state_update g2 handedness) handedness).state
          input_state_pinch
        = has_flag (input_hand (input_hand_state_update g handedness) handedness).state
          input_state_pinch ∧
      has_flag (input_hand (input_hand_state_update g2 handedness) handedness).state
          input_state_grip
        = has_flag (input_hand (input_hand_state_update g handedness) handedness).state
          input_state_grip) := by
  simp only [input_hand_state_update_info, hand_state_update]
  refine ⟨?_, ?_, ?_⟩
  · rw [(gesture_state_flags _ _ _).2.2.2.1]
    exact is_trigger_iff _
  · rw [(gesture_state_flags _ _ _).2.2.2.2.2.2.1]
    exact is_grip_iff _
  · intro g2 h2
    rw [(gesture_state_flags _ _ _).2.2.2.1, (gesture_state_flags _ _ _).2.2.2.1,
      (gesture_state_flags _ _ _).2.2.2.2.2.2.1, (gesture_state_flags _ _ _).2.2.2.2.2.2.1]
    simp only [is_trigger, is_grip, h2, and_self]

/-- C1 at concrete inputs: two hands with the same joints and different previous
state bits get the same steady flags. -/
theorem input_hand_state_update_steady_flags_witness :
    has_flag (input_hand (input_hand_state_update
        (globals_zero.with_hand handed_left
          (hand_with_tips_apart 0.01 (input_state_pinch ||| input_state_ungrip)))
        handed_left) handed_left).state input_state_pinch
      = has_flag (input_hand (input_hand_state_update
        (globals_zero.with_hand handed_left (hand_with_tips_apart 0.01 0))
        handed_left) handed_left).state input_state_pinch ∧
    has_flag (input_hand (input_hand_state_update
        (globals_zero.with_hand handed_left
          (hand_with_tips_apart 0.01 (input_state_pinch ||| input_state_ungrip)))
        handed_left) handed_left).state input_state_grip
      = has_flag (input_hand (input_hand_state_update
        (globals_zero.with_hand handed_left (hand_with_tips_apart 0.01 0))
        handed_left) handed_left).state input_state_grip :=
  (input_hand_state_update_steady_flags
    (globals_zero.with_hand handed_left (hand_with_tips_apart 0.01 0)) handed_left).2.2
    (globals_zero.with_hand handed_left
      (hand_with_tips_apart 0.01 (input_state_pinch ||| input_state_ungrip)))
    (by simp [hand_with_tips_apart])

/-- C2: when the pinch (grip) test differs from the previous steady pinch (grip)
flag, `input_hand_state_update` sets exactly the matching edge flag, just-pinch
(just-grip) when the test is true and un-pinch (un-grip) when it is false, and a
second update on the same joints leaves both edge flags clear. With index and
thumb tips 5 cm apart on one tick and 1 cm apart on the next, tip radii summing
to at most 3 cm, pinch is clear then set and just-pinch is set on the second
tick only. -/
theorem input_hand_state_update_edge_flags (g : globals) (handedness : handed_) :
    let hand := input_hand g handedness
    let hand1 := input_hand (input_hand_state_update g handedness) handedness
    let hand2 := input_hand
      (input_hand_state_update (input_hand_state_update g handedness) handedness) handedness
    (is_trigger hand ≠ has_flag hand.state input_state_pinch →
      has_flag hand1.state input_state_justpinch = is_trigger hand ∧
      has_flag hand1.state input_state_unpinch = !is_trigger hand ∧
      has_flag hand2.state input_state_justpinch = false ∧
      has_flag hand2.state input_state_unpinch = false) ∧
    (is_grip hand ≠ has_flag hand.state input_state_grip →
      has_flag hand1.state input_state_justgrip = is_grip hand ∧
      has_flag hand1.state input_state_ungrip = !is_grip hand ∧
      has_flag hand2.state input_state_justgrip = false ∧
      has_flag hand2.state input_state_ungrip = false) ∧
    (∀ g2 : globals,
      let next := input_hand g2 handedness
      let next1 := input_hand (input_hand_state_update g2 handedness) handedness
      next.state = hand1.state →
      vec3_magnitude_sq ((hand.fingers hand_finger_index hand_joint_tip).position
        - (hand.fingers hand_finger_thumb hand_joint_tip).position) = 0.05 ^ 2 →
      vec3_magnitude_sq ((next.fingers hand_finger_index hand_joint_tip).position
        - (next.fingers hand_finger_thumb hand_joint_tip).position) = 0.01 ^ 2 →
      0 ≤ (hand.fingers hand_finger_index hand_joint_tip).size
        + (hand.fingers hand_finger_thumb hand_joint_tip).size →
      (hand.fingers hand_finger_index hand_joint_tip).size
        + (hand.fingers hand_finger_thumb hand_joint_tip).size ≤ 0.03 →
      0 ≤ (next.fingers hand_finger_index hand_joint_tip).size
        + (next.fingers hand_finger_thumb hand_joint_tip).size →
      has_flag hand1.state input_state_pinch = false ∧
      has_flag hand1.state input_state_justpinch = false ∧
      has_flag next1.state input_state_pinch = true ∧
      has_flag next1.state input_state_justpinch = true) := by
  intro hand hand1 hand2
  have e1 : hand1.state = gesture_state hand.state (is_trigger hand) (is_grip hand) :=
    congrArg hand_t.state (input_hand_state_update_info g handedness)
  have e2 : hand2.state = gesture_state
      (gesture_state hand.state (is_trigger hand) (is_grip hand))
      (is_trigger hand) (is_grip hand) := by
    simp only [hand2, input_hand_state_update_info, hand]
    rfl
  have f1 := gesture_state_flags hand.state (is_trigger hand) (is_grip hand)
  have f2 := gesture_state_flags (gesture_state hand.state (is_trigger hand) (is_grip hand))
    (is_trigger hand) (is_grip hand)
  refine ⟨?_, ?_, ?_⟩
  · intro hne
    rw [e1, e2, f1.2.2.2.2.1, f1.2.2.2.2.2.1, f2.2.2.2.2.1, f2.2.2.2.2.2.1, f1.2.2.2.1]
    revert hne
    cases is_trigger hand <;> cases has_flag hand.state input_state_pinch <;> simp
  · intro hne
    rw [e1, e2, f1.2.2.2.2.2.2.2.1, f1.2.2.2.2.2.2.2.2, f2.2.2.2.2.2.2.2.1,
      f2.2.2.2.2.2.2.2.2, f1.2.2.2.2.2.2.1]
    revert hne
    cases is_grip hand <;> cases has_flag hand.state input_state_grip <;> simp
  · intro gn next next1 hst hd1 hd2 hr0 hr1 hn0
    have en : next1.state = gesture_state next.state (is_trigger next) (is_grip next) :=
      congrArg hand_t.state (input_hand_state_update_info gn handedness)
    have fn := gesture_state_flags next.state (is_trigger next) (is_grip next)
    have ht1 : is_trigger hand = false := by
      rw [← Bool.not_eq_true, is_trigger_iff, hd1, not_lt]
      nlinarith
    have ht2 : is_trigger next = true := by
      rw [is_trigger_iff, hd2]
      nlinarith
    rw [en, fn.2.2.2.1, fn.2.2.2.2.1, hst, e1, f1.2.2.2.1, f1.2.2.2.2.1, ht1, ht2]
    simp

/-! ## Vector arithmetic -/

@[simp] theorem vec3_sub_def (a b : vec3) : a - b = ⟨a.x - b.x, a.y - b.y, a.z - b.z⟩ := rfl
@[simp] theorem vec3_add_def (a b : vec3) : a + b = ⟨a.x + b.x, a.y + b.y, a.z + b.z⟩ := rfl
@[simp] theorem vec3_scale_def (a : vec3) (s : ℚ) : a * s = ⟨a.x * s, a.y * s, a.z * s⟩ := rfl
@[simp] theorem vec3_neg_def (a : vec3) : -a = ⟨-a.x, -a.y, -a.z⟩ := rfl

/-! ## Concrete hands -/

theorem is_trigger_tips_apart (d : ℚ) (s : Nat) :
    is_trigger (hand_with_tips_apart d s) = decide (d * d < 0.02 * 0.02) := by
  simp [is_trigger, hand_with_tips_apart, hand_finger_index, hand_finger_thumb, hand_joint_tip,
    vec3_magnitude_sq, vec3_zero, cm2m]
  norm_num

theorem is_grip_tips_apart (d : ℚ) (s : Nat) :
    is_grip (hand_with_tips_apart d s) = decide (d * d < 0.04 * 0.04) := by
  simp [is_grip, hand_with_tips_apart, hand_finger_index, hand_finger_middle, hand_joint_tip,
    hand_joint_metacarpal, vec3_magnitude_sq, vec3_zero, cm2m]
  norm_num

/-- C2 at concrete inputs: a hand with clear flags whose tips are 1 cm apart
gets just-pinch and just-grip and no un-pinch or un-grip, and loses the edge
flags on the next update; a hand with tips 5 cm apart and then 1 cm apart has
pinch clear then set, and just-pinch on the second tick only. -/
theorem input_hand_state_update_edge_flags_witness :
    (has_flag (input_hand (input_hand_state_update
        (globals_zero.with_hand handed_left (hand_with_tips_apart 0.01 0)) handed_left)
        handed_left).state input_state_justpinch = true ∧
     has_flag (input_hand (input_hand_state_update
        (globals_zero.with_hand handed_left (hand_with_tips_apart 0.01 0)) handed_left)
        handed_left).state input_state_unpinch = false ∧
     has_flag (input_hand (input_hand_state_update (input_hand_state_update
        (globals_zero.with_hand handed_left (hand_with_tips_apart 0.01 0)) handed_left)
        handed_left) handed_left).state input_state_justpinch = false ∧
     has_flag (input_hand (input_hand_state_update (input_hand_state_update
        (globals_zero.with_hand handed_left (hand_with_tips_apart 0.01 0)) handed_left)
        handed_left) handed_left).state input_state_unpinch = false) ∧
    (has_flag (input_hand (input_hand_state_update
        (globals_zero.with_hand handed_left (hand_with_tips_apart 0.01 0)) handed_left)
        handed_left).state input_state_justgrip = true ∧
     has_flag (input_hand (input_hand_state_update
        (globals_zero.with_hand handed_left (hand_with_tips_apart 0.01 0)) handed_left)
        handed_left).state input_state_ungrip = false ∧
     has_flag (input_hand (input_hand_state_update (input_hand_state_update
        (globals_zero.with_hand handed_left (hand_with_tips_apart 0.01 0)) handed_left)
        handed_left) handed_left).state input_state_justgrip = false ∧
     has_flag (input_hand (input_hand_state_update (input_hand_state_update
        (globals_zero.with_hand handed_left (hand_with_tips_apart 0.01 0)) handed_left)
        handed_left) handed_left).state input_state_ungrip = false) ∧
    (has_flag (input_hand (input_hand_state_update
        (globals_zero.with_hand handed_left (hand_with_tips_apart 0.05 0)) handed_left)
        handed_left).state input_state_pinch = false ∧
     has_flag (input_hand (input_hand_state_update
        (globals_zero.with_hand handed_left (hand_with_tips_apart 0.05 0)) handed_left)
        handed_left).state input_state_justpinch = false ∧
     has_flag (input_hand (input_hand_state_update
        (globals_zero.with_hand handed_left (hand_with_tips_apart 0.01 0)) handed_left)
        handed_left).state input_state_pinch = true ∧
     has_flag (input_hand (input_hand_state_update
        (globals_zero.with_hand handed_left (hand_with_tips_apart 0.01 0)) handed_left)
        handed_left).state input_state_justpinch = true) := by
  have t1 : is_trigger (hand_with_tips_apart 0.01 0) = true := by
    rw [is_trigger_tips_apart]; norm_num
  have g1 : is_grip (hand_with_tips_apart 0.01 0) = true := by
    rw [is_grip_tips_apart]; norm_num
  have t5 : is_trigger (hand_with_tips_apart 0.05 0) = false := by
    rw [is_trigger_tips_apart]; norm_num
  have g5 : is_grip (hand_with_tips_apart 0.05 0) = false := by
    rw [is_grip_tips_apart]; norm_num
  have h := input_hand_state_update_edge_flags
    (globals_zero.with_hand handed_left (hand_with_tips_apart 0.01 0)) handed_left
  have h5 := input_hand_state_update_edge_flags
    (globals_zero.with_hand handed_left (hand_with_tips_apart 0.05 0)) handed_left
  simp only [input_hand_with_hand, t1, g1] at h
  refine ⟨h.1 (by decide), h.2.1 (by decide), ?_⟩
  refine h5.2.2 (globals_zero.with_hand handed_left (hand_with_tips_apart 0.01 0)) ?_ ?_ ?_ ?_ ?_ ?_
  · simp only [input_hand_state_update_info, input_hand_with_hand, hand_state_update, t5, g5]
    decide
  · simp [hand_with_tips_apart, hand_finger_index, hand_finger_thumb, hand_joint_tip,
      vec3_magnitude_sq, vec3_zero]
    norm_num
  · simp [hand_with_tips_apart, hand_finger_index, hand_finger_thumb, hand_joint_tip,
      vec3_magnitude_sq, vec3_zero]
    norm_num
  · norm_num [hand_with_tips_apart, hand_finger_index, hand_finger_thumb, hand_joint_tip]
  · norm_num [hand_with_tips_apart, hand_finger_index, hand_finger_thumb, hand_joint_tip]
  · norm_num [hand_with_tips_apart, hand_finger_index, hand_finger_thumb, hand_joint_tip]

/-! ## Pose blender -/

theorem input_hand_sim_tracked (qs : quat → quat → ℚ → quat) (el : ℚ) (g : globals)
    (h : handed_) (pos : vec3) (ori : quat) (t gr : Bool) :
    (input_hand_sim qs el g h pos ori true t gr).hand_state h =
      { g.hand_state h with
        info :=
          { fingers := fun f j => project_joint h pos ori
              (blend_step qs (g.hand_state h).pose_blend (dest_pose g t gr) (blend_delta el) f) f j
            palm := ⟨pos, ori⟩
            state := tracked_state (g.hand_state h).info.state true
            handedness := (g.hand_state h).info.handedness }
        pose_blend :=
          blend_step qs (g.hand_state h).pose_blend (dest_pose g t gr) (blend_delta el) } := by
  simp [input_hand_sim]

theorem input_hand_sim_untracked (qs : quat → quat → ℚ → quat) (el : ℚ) (g : globals)
    (h : handed_) (pos : vec3) (ori : quat) (t gr : Bool) :
    (input_hand_sim qs el g h pos ori false t gr).hand_state h =
      { g.hand_state h with
        info :=
          { (g.hand_state h).info with
            palm := ⟨pos, ori⟩
            state := tracked_state (g.hand_state h).info.state false } } := by
  simp [input_hand_sim]

/-- C3: in a tracked `input_hand_sim` tick the blend buffer is moved toward the
pinch table for (trigger, grip) = (true, false), the fist table for (true,
true), the point table for (false, true) and the neutral table for (false,
false), whatever the other inputs and the prior state are. -/
theorem input_hand_sim_target_pose (quat_slerp : quat → quat → ℚ → quat) (elapsed : ℚ)
    (g : globals) (handedness : handed_) (hand_pos : vec3) (orientation : quat) :
    (dest_pose g true false = g.input_pose_pinch ∧
     dest_pose g true true = g.input_pose_fist ∧
     dest_pose g false true = g.input_pose_point ∧
     dest_pose g false false = g.input_pose_neutral) ∧
    (∀ trigger_pressed grip_pressed : Bool,
      ((input_hand_sim quat_slerp elapsed g handedness hand_pos orientation true
          trigger_pressed grip_pressed).hand_state handedness).pose_blend
        = blend_step quat_slerp (g.hand_state handedness).pose_blend
            (match trigger_pressed, grip_pressed with
              | true, false => g.input_pose_pinch
              | true, true => g.input_pose_fist
              | false, true => g.input_pose_point
              | false, false => g.input_pose_neutral)
            (blend_delta elapsed)) := by
  refine ⟨⟨rfl, rfl, rfl, rfl⟩, ?_⟩
  intro t gr
  rw [input_hand_sim_tracked]
  cases t <;> cases gr <;> rfl

theorem blend_delta_saturates (elapsed : ℚ) (h : 1 / 30 ≤ elapsed) : blend_delta elapsed = 1 := by
  unfold blend_delta
  by_cases hgt : elapsed * 30 > 1
  · simp [hgt]
  · have h1 : elapsed * 30 = 1 := by linarith
    simp [h1]

theorem vec3_lerp_one (a b : vec3) : vec3_lerp a b 1 = b := by
  cases a; cases b; simp [vec3_lerp]

theorem quat_lerp_one (a b : quat) : quat_lerp a b 1 = b := by
  cases a; cases b; simp [quat_lerp]

theorem blend_step_one (qs : quat → quat → ℚ → quat) (hqs : ∀ a b, qs a b 1 = b)
    (pose_blend dest : Fin 5 → Fin 5 → pose_t) : blend_step qs pose_blend dest 1 = dest := by
  funext f j
  simp [blend_step, vec3_lerp_one, hqs]

/-- The tracked-family flags `input_hand_sim` leaves, and the gesture flags it
keeps. -/
theorem tracked_state_flags (s : Nat) (tracked : Bool) :
    has_flag (tracked_state s tracked) input_state_tracked
      = (has_flag s input_state_tracked || tracked) ∧
    has_flag (tracked_state s tracked) input_state_justtracked
      = (has_flag s input_state_justtracked
          || ((has_flag s input_state_tracked != tracked) && tracked)) ∧
    has_flag (tracked_state s tracked) input_state_untracked
      = (has_flag s input_state_untracked
          || ((has_flag s input_state_tracked != tracked) && !tracked)) := by
  simp only [tracked_state, input_state_tracked_eq, input_state_justtracked_eq,
    input_state_untracked_eq, has_flag_two_pow]
  cases tracked <;> cases h0 : s.testBit 0 <;> cases h1 : s.testBit 1 <;>
    cases h2 : s.testBit 2 <;>
    simp +decide [Nat.testBit_or, h0, h1, h2, -Nat.testBit_zero]

/-- C4: with a `quat_slerp` that returns its target at factor 1, one tracked
`input_hand_sim` tick with elapsed time at least 1/30 s uses blend factor 1 and
leaves each of the 25 cells of the blend buffer equal to the same cell of the
target table, in position and in orientation. -/
theorem input_hand_sim_blend_converges (quat_slerp : quat → quat → ℚ → quat)
    (h_slerp : ∀ a b, quat_slerp a b 1 = b) (elapsed : ℚ) (h_elapsed : 1 / 30 ≤ elapsed)
    (g : globals) (handedness : handed_) (hand_pos : vec3) (orientation : quat)
    (trigger_pressed grip_pressed : Bool) :
    blend_delta elapsed = 1 ∧
    ∀ f j : Fin 5,
      vec3_lerp ((g.hand_state handedness).pose_blend f j).position
          (dest_pose g trigger_pressed grip_pressed f j).position (blend_delta elapsed)
        = (dest_pose g trigger_pressed grip_pressed f j).position ∧
      (((input_hand_sim quat_slerp elapsed g handedness hand_pos orientation true
          trigger_pressed grip_pressed).hand_state handedness).pose_blend f j).position
        = (dest_pose g trigger_pressed grip_pressed f j).position ∧
      (((input_hand_sim quat_slerp elapsed g handedness hand_pos orientation true
          trigger_pressed grip_pressed).hand_state handedness).pose_blend f j).orientation
        = (dest_pose g trigger_pressed grip_pressed f j).orientation := by
  have hd := blend_delta_saturates elapsed h_elapsed
  refine ⟨hd, fun f j => ?_⟩
  rw [input_hand_sim_tracked, hd]
  simp only [blend_step_one quat_slerp h_slerp, vec3_lerp_one, and_self]

/-- C4 at concrete inputs: from the zero start state, with componentwise
interpolation standing for `quat_slerp` and elapsed time 1/30 s, a tracked tick
with both buttons pressed leaves cell (2, 3) of the blend buffer of the right
hand equal to the same cell of the fist table. -/
theorem input_hand_sim_blend_converges_witness :
    (1 : ℚ) / 30 ≤ 1 / 30 ∧
    (((input_hand_sim quat_lerp (1 / 30) globals_zero handed_right vec3_zero quat_identity
        true true true).hand_state handed_right).pose_blend 2 3).position
      = (globals_zero.input_pose_fist 2 3).position ∧
    (((input_hand_sim quat_lerp (1 / 30) globals_zero handed_right vec3_zero quat_identity
        true true true).hand_state handed_right).pose_blend 2 3).orientation
      = (globals_zero.input_pose_fist 2 3).orientation :=
  ⟨le_refl _,
    ((input_hand_sim_blend_converges quat_lerp quat_lerp_one (1 / 30) (le_refl _) globals_zero
      handed_right vec3_zero quat_identity true true).2 2 3).2⟩

/-- C5: on a hand whose tracked flag is clear, one `input_hand_sim` tick with
tracked = true, trigger = true, grip = false and elapsed time 1/30 s, with a
`quat_slerp` that returns its target at factor 1, selects the pinch table, uses
blend factor exactly 1, leaves the blend buffer equal to the pinch table, and
leaves the just-tracked and the tracked flags set. -/
theorem input_hand_sim_untracked_to_pinch (quat_slerp : quat → quat → ℚ → quat)
    (h_slerp : ∀ a b, quat_slerp a b 1 = b)
    (g : globals) (handedness : handed_) (hand_pos : vec3) (orientation : quat)
    (h_untracked : has_flag (input_hand g handedness).state input_state_tracked = false) :
    dest_pose g true false = g.input_pose_pinch ∧
    blend_delta (1 / 30) = 1 ∧
    ((input_hand_sim quat_slerp (1 / 30) g handedness hand_pos orientation true true
        false).hand_state handedness).pose_blend = g.input_pose_pinch ∧
    has_flag (input_hand (input_hand_sim quat_slerp (1 / 30) g handedness hand_pos orientation
        true true false) handedness).state input_state_justtracked = true ∧
    has_flag (input_hand (input_hand_sim quat_slerp (1 / 30) g handedness hand_pos orientation
        true true false) handedness).state input_state_tracked = true := by
  have hd := blend_delta_saturates (1 / 30) (le_refl _)
  have hf := tracked_state_flags (g.hand_state handedness).info.state true
  simp only [input_hand] at h_untracked
  refine ⟨rfl, hd, ?_, ?_, ?_⟩
  · rw [input_hand_sim_tracked, hd, blend_step_one quat_slerp h_slerp]
    rfl
  · simp only [input_hand, input_hand_sim_tracked]
    rw [hf.2.1, h_untracked]
    simp
  · simp only [input_hand, input_hand_sim_tracked]
    rw [hf.1]
    simp

/-- C5 at concrete inputs: the zero start state has its tracked flag clear, and
the tick leaves the blend buffer of the left hand equal to the pinch table with
just-tracked and tracked set. -/
theorem input_hand_sim_untracked_to_pinch_witness :
    has_flag (input_hand globals_zero handed_left).state input_state_tracked = false ∧
    ((input_hand_sim quat_lerp (1 / 30) globals_zero handed_left vec3_zero quat_identity true
        true false).hand_state handed_left).pose_blend = globals_zero.input_pose_pinch ∧
    has_flag (input_hand (input_hand_sim quat_lerp (1 / 30) globals_zero handed_left vec3_zero
        quat_identity true true false) handed_left).state input_state_justtracked = true ∧
    has_flag (input_hand (input_hand_sim quat_lerp (1 / 30) globals_zero handed_left vec3_zero
        quat_identity true true false) handed_left).state input_state_tracked = true :=
  ⟨by decide,
    (input_hand_sim_untracked_to_pinch quat_lerp quat_lerp_one globals_zero handed_left
      vec3_zero quat_identity (by decide)).2.2⟩

/-! ## Tracked-family flags -/

theorem input_hand_sim_state (qs : quat → quat → ℚ → quat) (el : ℚ) (g : globals)
    (h : handed_) (pos : vec3) (ori : quat) (tracked t gr : Bool) :
    (input_hand (input_hand_sim qs el g h pos ori tracked t gr) h).state
      = tracked_state (input_hand g h).state tracked := by
  cases tracked
  · simp only [input_hand, input_hand_sim_untracked]
  · simp only [input_hand, input_hand_sim_tracked]

theorem input_hand_state_update_state (g : globals) (h : handed_) :
    (input_hand (input_hand_state_update g h) h).state
      = gesture_state (input_hand g h).state (is_trigger (input_hand g h))
          (is_grip (input_hand g h)) :=
  congrArg hand_t.state (input_hand_state_update_info g h)

/-- Once set, the tracked flag survives `input_hand_sim`, whatever `tracked` is. -/
theorem tracked_flag_survives_sim (s : Nat) (tracked : Bool)
    (h : has_flag s input_state_tracked = true) :
    has_flag (tracked_state s tracked) input_state_tracked = true := by
  rw [(tracked_state_flags s tracked).1, h]
  rfl

/-- C6, the code at the failing input: from the zero start state, a tracked tick
followed by two untracked ticks (each `input_hand_sim` then
`input_hand_state_update`). After the second tick, whose `tracked` input is
false, the tracked flag is still set, before and after the state update; after
the third tick, in which `tracked` did not change, the untracked and the
just-tracked edge flags are both set. -/
theorem input_hand_sim_tracked_flag_sticks :
    has_flag (input_hand
      (input_hand_sim quat_lerp (1 / 30)
        (input_hand_state_update
          (input_hand_sim quat_lerp (1 / 30) globals_zero handed_left vec3_zero quat_identity
            true false false) handed_left)
        handed_left vec3_zero quat_identity false false false)
      handed_left).state input_state_tracked = true ∧
    has_flag (input_hand
      (input_hand_state_update
        (input_hand_sim quat_lerp (1 / 30)
          (input_hand_state_update
            (input_hand_sim quat_lerp (1 / 30) globals_zero handed_left vec3_zero quat_identity
              true false false) handed_left)
          handed_left vec3_zero quat_identity false false false) handed_left)
      handed_left).state input_state_tracked = true ∧
    has_flag (input_hand
      (input_hand_state_update
        (input_hand_sim quat_lerp (1 / 30)
          (input_hand_state_update
            (input_hand_sim quat_lerp (1 / 30)
              (input_hand_state_update
                (input_hand_sim quat_lerp (1 / 30) globals_zero handed_left vec3_zero
                  quat_identity true false false) handed_left)
              handed_left vec3_zero quat_identity false false false) handed_left)
          handed_left vec3_zero quat_identity false false false) handed_left)
      handed_left).state input_state_untracked = true ∧
    has_flag (input_hand
      (input_hand_state_update
        (input_hand_sim quat_lerp (1 / 30)
          (input_hand_state_update
            (input_hand_sim quat_lerp (1 / 30)
              (input_hand_state_update
                (input_hand_sim quat_lerp (1 / 30) globals_zero handed_left vec3_zero
                  quat_identity true false false) handed_left)
              handed_left vec3_zero quat_identity false false false) handed_left)
          handed_left vec3_zero quat_identity false false false) handed_left)
      handed_left).state input_state_justtracked = true := by
  have h0 : (input_hand globals_zero handed_left).state = 0 := rfl
  simp only [input_hand_sim_state, input_hand_state_update_state, h0,
    (gesture_state_flags _ _ _).1, (gesture_state_flags _ _ _).2.1,
    (gesture_state_flags _ _ _).2.2.1,
    (tracked_state_flags _ _).1, (tracked_state_flags _ _).2.1, (tracked_state_flags _ _).2.2]
  decide

/-! ## Skeleton projection -/

@[simp] theorem quat_mul_def (a b : quat) : a * b = quat.mul a b := rfl
@[simp] theorem quat_rotate_def (q : quat) (v : vec3) : q * v = quat.rotate q v := rfl

theorem input_hand_sim_fingers (qs : quat → quat → ℚ → quat) (el : ℚ) (g : globals)
    (h : handed_) (pos : vec3) (ori : quat) (t gr : Bool) (f j : Fin 5) :
    (input_hand (input_hand_sim qs el g h pos ori true t gr) h).fingers f j
      = project_joint h pos ori
          (((input_hand_sim qs el g h pos ori true t gr).hand_state h).pose_blend f) f j := by
  simp only [input_hand, input_hand_sim_tracked]

/-- The right-hand projection is the mirror image of the left-hand projection
taken at the mirrored palm pose. -/
theorem project_joint_mirror (pos : vec3) (ori : quat) (finger : Fin 5 → pose_t) (f j : Fin 5) :
    (project_joint handed_right pos ori finger f j).position
      = mirror_pos
          (project_joint handed_left (mirror_pos pos) (mirror_rot ori) finger f j).position ∧
    (project_joint handed_right pos ori finger f j).orientation
      = mirror_rot
          (project_joint handed_left (mirror_pos pos) (mirror_rot ori) finger f j).orientation := by
  constructor
  · simp [project_joint, mirror_pos, mirror_rot, quat.rotate, quat.mul, quat.conj]
    refine ⟨?_, ?_, ?_⟩ <;> ring
  · simp [project_joint, mirror_pos, mirror_rot, quat.mul]
    refine ⟨?_, ?_⟩ <;> ring

/-- C7 as stated fails: from the zero start state, where both hands hold the same
blend buffer, with the palm at (1, 0, 0) and the unit palm orientation
(0, 1, 0, 0), the right-hand joint position is not the left-hand position with
x negated, and the right-hand orientation is not the left-hand orientation with
y and z negated. -/
theorem input_hand_sim_mirror_same_palm_fails :
    ((input_hand (input_hand_sim quat_lerp (1 / 30) globals_zero handed_right ⟨1, 0, 0⟩
        ⟨0, 1, 0, 0⟩ true false false) handed_right).fingers 0 0).position
      ≠ mirror_pos ((input_hand (input_hand_sim quat_lerp (1 / 30) globals_zero handed_left
        ⟨1, 0, 0⟩ ⟨0, 1, 0, 0⟩ true false false) handed_left).fingers 0 0).position ∧
    ((input_hand (input_hand_sim quat_lerp (1 / 30) globals_zero handed_right ⟨1, 0, 0⟩
        ⟨0, 1, 0, 0⟩ true false false) handed_right).fingers 0 0).orientation
      ≠ mirror_rot ((input_hand (input_hand_sim quat_lerp (1 / 30) globals_zero handed_left
        ⟨1, 0, 0⟩ ⟨0, 1, 0, 0⟩ true false false) handed_left).fingers 0 0).orientation := by
  have hd := blend_delta_saturates (1 / 30) (le_refl _)
  simp only [input_hand_sim_fingers, input_hand_sim_tracked, hd,
    blend_step_one quat_lerp quat_lerp_one]
  constructor
  · simp [project_joint, mirror_pos, dest_pose, globals_zero, vec3_zero, quat_identity,
      quat.rotate, quat.mul, quat.conj]
    norm_num
  · simp [project_joint, mirror_rot, dest_pose, globals_zero, vec3_zero, quat_identity,
      quat.mul]
    norm_num

theorem mirror_pos_fixed (p : vec3) (h : p.x = 0) : mirror_pos p = p := by
  cases p
  simp only [mirror_pos, vec3.mk.injEq, and_self, and_true] at h ⊢
  rw [h, neg_zero]

theorem mirror_rot_fixed (q : quat) (hy : q.y = 0) (hz : q.z = 0) : mirror_rot q = q := by
  cases q
  simp only [mirror_rot, quat.mk.injEq, true_and, and_true] at hy hz ⊢
  rw [hy, hz, neg_zero]
  exact ⟨rfl, rfl⟩

/-- C7, amended: when both hands hold the same blend buffer, the joint positions
a tracked `input_hand_sim` tick writes for the right hand equal, with x negated,
the positions it writes for the left hand at the mirrored palm pose (palm
position with x negated, palm orientation with y and z negated), and the
right-hand orientations equal those left-hand orientations with y and z
negated. With the same palm pose for both hands this holds when the palm
position has x = 0 and the palm orientation has y = z = 0. -/
theorem input_hand_sim_mirror (quat_slerp : quat → quat → ℚ → quat) (elapsed : ℚ)
    (g : globals) (hand_pos : vec3) (orientation : quat) (trigger_pressed grip_pressed : Bool)
    (h_same : (g.hand_state handed_right).pose_blend = (g.hand_state handed_left).pose_blend) :
    (∀ f j : Fin 5,
      ((input_hand (input_hand_sim quat_slerp elapsed g handed_right hand_pos orientation true
          trigger_pressed grip_pressed) handed_right).fingers f j).position
        = mirror_pos ((input_hand (input_hand_sim quat_slerp elapsed g handed_left
            (mirror_pos hand_pos) (mirror_rot orientation) true trigger_pressed grip_pressed)
            handed_left).fingers f j).position ∧
      ((input_hand (input_hand_sim quat_slerp elapsed g handed_right hand_pos orientation true
          trigger_pressed grip_pressed) handed_right).fingers f j).orientation
        = mirror_rot ((input_hand (input_hand_sim quat_slerp elapsed g handed_left
            (mirror_pos hand_pos) (mirror_rot orientation) true trigger_pressed grip_pressed)
            handed_left).fingers f j).orientation) ∧
    (hand_pos.x = 0 → orientation.y = 0 → orientation.z = 0 → ∀ f j : Fin 5,
      ((input_hand (input_hand_sim quat_slerp elapsed g handed_right hand_pos orientation true
          trigger_pressed grip_pressed) handed_right).fingers f j).position
        = mirror_pos ((input_hand (input_hand_sim quat_slerp elapsed g handed_left
            hand_pos orientation true trigger_pressed grip_pressed)
            handed_left).fingers f j).position ∧
      ((input_hand (input_hand_sim quat_slerp elapsed g handed_right hand_pos orientation true
          trigger_pressed grip_pressed) handed_right).fingers f j).orientation
        = mirror_rot ((input_hand (input_hand_sim quat_slerp elapsed g handed_left
            hand_pos orientation true trigger_pressed grip_pressed)
            handed_left).fingers f j).orientation) := by
  have key : ∀ f j : Fin 5,
      ((input_hand (input_hand_sim quat_slerp elapsed g handed_right hand_pos orientation true
          trigger_pressed grip_pressed) handed_right).fingers f j).position
        = mirror_pos ((input_hand (input_hand_sim quat_slerp elapsed g handed_left
            (mirror_pos hand_pos) (mirror_rot orientation) true trigger_pressed grip_pressed)
            handed_left).fingers f j).position ∧
      ((input_hand (input_hand_sim quat_slerp elapsed g handed_right hand_pos orientation true
          trigger_pressed grip_pressed) handed_right).fingers f j).orientation
        = mirror_rot ((input_hand (input_hand_sim quat_slerp elapsed g handed_left
            (mirror_pos hand_pos) (mirror_rot orientation) true trigger_pressed grip_pressed)
            handed_left).fingers f j).orientation := by
    intro f j
    simp only [input_hand_sim_fingers, input_hand_sim_tracked, h_same]
    exact project_joint_mirror hand_pos orientation _ f j
  refine ⟨key, ?_⟩
  intro hx hy hz f j
  have k := key f j
  rw [mirror_pos_fixed hand_pos hx, mirror_rot_fixed orientation hy hz] at k
  exact k

/-- C7, amended, at concrete inputs: from the zero start state, with the palm at
(0, 1, 2) and the unit palm orientation (3/5, 0, 0, 4/5), the right-hand index
tip is the mirror image of the left-hand index tip. -/
theorem input_hand_sim_mirror_witness :
    ((input_hand (input_hand_sim quat_lerp (1 / 30) globals_zero handed_right ⟨0, 1, 2⟩
        ⟨3 / 5, 0, 0, 4 / 5⟩ true true false) handed_right).fingers 1 4).position
      = mirror_pos ((input_hand (input_hand_sim quat_lerp (1 / 30) globals_zero handed_left
          ⟨0, 1, 2⟩ ⟨3 / 5, 0, 0, 4 / 5⟩ true true false) handed_left).fingers 1 4).position ∧
    ((input_hand (input_hand_sim quat_lerp (1 / 30) globals_zero handed_right ⟨0, 1, 2⟩
        ⟨3 / 5, 0, 0, 4 / 5⟩ true true false) handed_right).fingers 1 4).orientation
      = mirror_rot ((input_hand (input_hand_sim quat_lerp (1 / 30) globals_zero handed_left
          ⟨0, 1, 2⟩ ⟨3 / 5, 0, 0, 4 / 5⟩ true true false) handed_left).fingers 1 4).orientation :=
  (input_hand_sim_mirror quat_lerp (1 / 30) globals_zero ⟨0, 1, 2⟩ ⟨3 / 5, 0, 0, 4 / 5⟩ true false
    rfl).2 rfl rfl rfl 1 4

/-- C8: after a tracked `input_hand_sim` tick every live joint (f, j) is the
projection of the blended local pose (p, r) of that cell, with p.x, r.y and r.z
negated first exactly when the hand is the right one: position = palm
orientation * p + palm position, orientation = r * palm orientation, size =
hand_finger_size f * hand_joint_size j * 0.25, the palm pose being the one
passed in; and no tick, tracked or not, changes any of the four pose tables. -/
theorem input_hand_sim_projection (quat_slerp : quat → quat → ℚ → quat) (elapsed : ℚ)
    (g : globals) (handedness : handed_) (hand_pos : vec3) (orientation : quat)
    (trigger_pressed grip_pressed : Bool) :
    (∀ f j : Fin 5,
      let after := input_hand_sim quat_slerp elapsed g handedness hand_pos orientation true
        trigger_pressed grip_pressed
      let blended := (after.hand_state handedness).pose_blend f j
      let p := if handedness = handed_right then mirror_pos blended.position
        else blended.position
      let r := if handedness = handed_right then mirror_rot blended.orientation
        else blended.orientation
      let live := (input_hand after handedness).fingers f j
      (input_hand after handedness).palm = ⟨hand_pos, orientation⟩ ∧
      live.position = (input_hand after handedness).palm.orientation * p
        + (input_hand after handedness).palm.position ∧
      live.orientation = r * (input_hand after handedness).palm.orientation ∧
      live.size = hand_finger_size f * hand_joint_size j * 0.25) ∧
    (∀ tracked : Bool,
      let after := input_hand_sim quat_slerp elapsed g handedness hand_pos orientation tracked
        trigger_pressed grip_pressed
      after.input_pose_pinch = g.input_pose_pinch ∧
      after.input_pose_fist = g.input_pose_fist ∧
      after.input_pose_point = g.input_pose_point ∧
      after.input_pose_neutral = g.input_pose_neutral) := by
  constructor
  · intro f j
    simp only [input_hand_sim_fingers]
    simp only [input_hand, input_hand_sim_tracked]
    cases handedness <;> simp [project_joint, mirror_pos, mirror_rot]
  · intro tracked
    cases tracked <;> simp [input_hand_sim, globals.set_hand]

/-! ## Tube mesh -/

theorem modify_map_of_invariant {α β : Type} (obs : α → β) (f : α → α)
    (hf : ∀ a, obs (f a) = obs a) (l : List α) (n : Nat) :
    (l.modify f n).map obs = l.map obs := by
  induction l generalizing n with
  | nil => simp
  | cons a l ih =>
    cases n with
    | zero => simp [hf]
    | succ n => simp [ih]

theorem put_ring_vert_uv_col (st : List vert_t × Nat) (center n : vec3) (scale : ℚ) :
    (put_ring_vert st center n scale).1.map (fun v => (v.uv, v.col))
      = st.1.map (fun v => (v.uv, v.col)) := by
  unfold put_ring_vert
  exact modify_map_of_invariant (fun v : vert_t => (v.uv, v.col))
    (fun vt => { vt with norm := n, pos := center + n * scale }) (fun _ => rfl) st.1 st.2

theorem ring_joint_uv_col (fingers : Fin 5 → Fin 5 → hand_joint_t) (st : List vert_t × Nat)
    (f j : Fin 5) :
    (ring_joint fingers st f j).1.map (fun v => (v.uv, v.col))
      = st.1.map (fun v => (v.uv, v.col)) := by
  simp only [ring_joint, put_ring_vert_uv_col]

/-- The per-frame loops leave the texture coordinate and the colour of every
vertex as they were. -/
theorem build_rings_uv_col (fingers : Fin 5 → Fin 5 → hand_joint_t) (verts : List vert_t) :
    (build_rings fingers verts).1.map (fun v => (v.uv, v.col))
      = verts.map (fun v => (v.uv, v.col)) := by
  have inner : ∀ (l : List (Fin 5)) (s : List vert_t × Nat) (f : Fin 5),
      (l.foldl (fun st j => ring_joint fingers st f j) s).1.map (fun v => (v.uv, v.col))
        = s.1.map (fun v => (v.uv, v.col)) := by
    intro l
    induction l with
    | nil => intro s f; rfl
    | cons j l ih => intro s f; rw [List.foldl_cons, ih, ring_joint_uv_col]
  have outer : ∀ (l l2 : List (Fin 5)) (s : List vert_t × Nat),
      (l.foldl (fun st f => l2.foldl (fun st j => ring_joint fingers st f j) st) s).1.map
          (fun v => (v.uv, v.col))
        = s.1.map (fun v => (v.uv, v.col)) := by
    intro l
    induction l with
    | nil => intro l2 s; rfl
    | cons f l ih => intro l2 s; rw [List.foldl_cons, ih, inner]
  exact outer (List.finRange 5) (List.finRange 5) (verts, 0)

/-- A call of `input_hand_update_mesh` on a hand whose vertex buffer exists. -/
theorem input_hand_update_mesh_built (g : globals) (hand : handed_) (vs : List vert_t)
    (h : (g.hand_state hand).mesh.verts = some vs) :
    ((input_hand_update_mesh g hand).hand_state hand).mesh =
      { (g.hand_state hand).mesh with
        verts := some (build_rings (g.hand_state hand).info.fingers vs).1
        mesh := (g.hand_state hand).mesh.mesh.map (fun m =>
          mesh_set_verts m (build_rings (g.hand_state hand).info.fingers vs).1
            (g.hand_state hand).mesh.vert_count) } := by
  simp [input_hand_update_mesh, h]

/-- A call of `input_hand_update_mesh` on a hand whose vertex buffer is null. -/
theorem input_hand_update_mesh_fresh (g : globals) (hand : handed_)
    (h : (g.hand_state hand).mesh.verts = none) :
    ((input_hand_update_mesh g hand).hand_state hand).mesh =
      { init_mesh hand (g.hand_state hand).mesh with
        verts := some (build_rings (g.hand_state hand).info.fingers
          ((init_mesh hand (g.hand_state hand).mesh).verts.getD [])).1
        mesh := (init_mesh hand (g.hand_state hand).mesh).mesh.map (fun m =>
          mesh_set_verts m (build_rings (g.hand_state hand).info.fingers
            ((init_mesh hand (g.hand_state hand).mesh).verts.getD [])).1
            (init_mesh hand (g.hand_state hand).mesh).vert_count) } := by
  simp [input_hand_update_mesh, h]

theorem input_hand_update_mesh_verts_some (g : globals) (hand : handed_) :
    ∃ vs, ((input_hand_update_mesh g hand).hand_state hand).mesh.verts = some vs := by
  simp [input_hand_update_mesh]

@[simp] theorem with_hand_mesh (g : globals) (hand : handed_) (info : hand_t) :
    ((g.with_hand hand info).hand_state hand).mesh = (g.hand_state hand).mesh := by
  simp [globals.with_hand]

@[simp] theorem with_hand_info (g : globals) (hand : handed_) (info : hand_t) :
    ((g.with_hand hand info).hand_state hand).info = info := by
  simp [globals.with_hand]

/-- What every later call of `input_hand_update_mesh` keeps, once the vertex
buffer exists: the index buffer, both counts, the index data held by the mesh
object, and the texture coordinate and colour of every vertex. -/
theorem later_mesh_updates_keep (poses : List (Fin 5 → Fin 5 → hand_joint_t))
    (g : globals) (hand : handed_) (vs : List vert_t)
    (h : (g.hand_state hand).mesh.verts = some vs) :
    ((later_mesh_updates g hand poses).hand_state hand).mesh.inds
      = (g.hand_state hand).mesh.inds ∧
    ((later_mesh_updates g hand poses).hand_state hand).mesh.vert_count
      = (g.hand_state hand).mesh.vert_count ∧
    ((later_mesh_updates g hand poses).hand_state hand).mesh.ind_count
      = (g.hand_state hand).mesh.ind_count ∧
    (((later_mesh_updates g hand poses).hand_state hand).mesh.mesh.map mesh_t.inds)
      = (g.hand_state hand).mesh.mesh.map mesh_t.inds ∧
    uv_col_of ((later_mesh_updates g hand poses).hand_state hand).mesh.verts
      = uv_col_of (g.hand_state hand).mesh.verts := by
  induction poses generalizing g vs with
  | nil => simp [later_mesh_updates]
  | cons fingers poses ih =>
    have hb := input_hand_update_mesh_built
      (g.with_hand hand { input_hand g hand with fingers := fingers }) hand vs
      (by rw [with_hand_mesh]; exact h)
    obtain ⟨vs', hvs'⟩ := input_hand_update_mesh_verts_some
      (g.with_hand hand { input_hand g hand with fingers := fingers }) hand
    have step := ih
      (input_hand_update_mesh (g.with_hand hand { input_hand g hand with fingers := fingers })
        hand) vs' hvs'
    have e : later_mesh_updates g hand (fingers :: poses)
        = later_mesh_updates (input_hand_update_mesh
            (g.with_hand hand { input_hand g hand with fingers := fingers }) hand) hand poses :=
      rfl
    rw [e]
    refine ⟨step.1.trans ?_, step.2.1.trans ?_, step.2.2.1.trans ?_, step.2.2.2.1.trans ?_,
      step.2.2.2.2.trans ?_⟩
    · rw [hb, with_hand_mesh]
    · rw [hb, with_hand_mesh]
    · rw [hb, with_hand_mesh]
    · rw [hb, with_hand_mesh]
      cases (g.hand_state hand).mesh.mesh <;> simp [mesh_set_verts]
    · rw [hb, with_hand_mesh, h]
      simp only [uv_col_of, Option.map_some', build_rings_uv_col]

/-- C9: on a hand whose vertex buffer is still null, as at program start, after
the first call of `input_hand_update_mesh` and after any number of later calls
with any joint poses, vert_count = 4 * 5 * 5 = 100 and ind_count =
5 * (2*2*3 + 4*(5-1)*2*3) = 540; the expression the code evaluates,
`(3*8*(SK_FINGERJOINTS-1) + 4*3) * SK_FINGERS`, equals fingers * (2 caps * 2
triangles * 3 + tube quads * 2 * 3) with tube quads = 4 * (joints - 1). -/
theorem input_hand_update_mesh_counts (g : globals) (hand : handed_)
    (poses : List (Fin 5 → Fin 5 → hand_joint_t))
    (h_fresh : (g.hand_state hand).mesh.verts = none) :
    ((later_mesh_updates (input_hand_update_mesh g hand) hand poses).hand_state hand).mesh.vert_count
      = 4 * 5 * 5 ∧
    ((later_mesh_updates (input_hand_update_mesh g hand) hand poses).hand_state hand).mesh.vert_count
      = 100 ∧
    ((later_mesh_updates (input_hand_update_mesh g hand) hand poses).hand_state hand).mesh.ind_count
      = 5 * (2 * 2 * 3 + 4 * (5 - 1) * 2 * 3) ∧
    ((later_mesh_updates (input_hand_update_mesh g hand) hand poses).hand_state hand).mesh.ind_count
      = 540 ∧
    ((input_hand_update_mesh g hand).hand_state hand).mesh.vert_count
      = 4 * SK_FINGERJOINTS * SK_FINGERS ∧
    ((input_hand_update_mesh g hand).hand_state hand).mesh.ind_count
      = (3 * 8 * (SK_FINGERJOINTS - 1) + 4 * 3) * SK_FINGERS ∧
    (3 * 8 * (SK_FINGERJOINTS - 1) + 4 * 3) * SK_FINGERS
      = SK_FINGERS * (2 * 2 * 3 + (4 * (SK_FINGERJOINTS - 1)) * 2 * 3) := by
  obtain ⟨vs, hvs⟩ := input_hand_update_mesh_verts_some g hand
  have keep := later_mesh_updates_keep poses (input_hand_update_mesh g hand) hand vs hvs
  have hv : ((input_hand_update_mesh g hand).hand_state hand).mesh.vert_count
      = 4 * SK_FINGERJOINTS * SK_FINGERS := by
    rw [input_hand_update_mesh_fresh g hand h_fresh]; rfl
  have hi : ((input_hand_update_mesh g hand).hand_state hand).mesh.ind_count
      = (3 * 8 * (SK_FINGERJOINTS - 1) + 4 * 3) * SK_FINGERS := by
    rw [input_hand_update_mesh_fresh g hand h_fresh]; rfl
  rw [keep.2.1, keep.2.2.1]
  exact ⟨hv, hv, hi, hi, hv, hi, rfl⟩

/-- C9 at concrete inputs: the zero start state has a null vertex buffer, and
after the first call and two later calls the counts are 100 and 540. -/
theorem input_hand_update_mesh_counts_witness :
    (globals_zero.hand_state handed_left).mesh.verts = none ∧
    ((later_mesh_updates (input_hand_update_mesh globals_zero handed_left) handed_left
        [fun _ _ => ⟨vec3_zero, quat_identity, 0⟩,
         fun _ _ => ⟨vec3_up, quat_identity, 1⟩]).hand_state handed_left).mesh.vert_count = 100 ∧
    ((later_mesh_updates (input_hand_update_mesh globals_zero handed_left) handed_left
        [fun _ _ => ⟨vec3_zero, quat_identity, 0⟩,
         fun _ _ => ⟨vec3_up, quat_identity, 1⟩]).hand_state handed_left).mesh.ind_count = 540 :=
  ⟨rfl,
    (input_hand_update_mesh_counts globals_zero handed_left
      [fun _ _ => ⟨vec3_zero, quat_identity, 0⟩, fun _ _ => ⟨vec3_up, quat_identity, 1⟩] rfl).2.1,
    (input_hand_update_mesh_counts globals_zero handed_left
      [fun _ _ => ⟨vec3_zero, quat_identity, 0⟩, fun _ _ => ⟨vec3_up, quat_identity, 1⟩]
      rfl).2.2.2.1⟩

/-- C10: after a first call of `input_hand_update_mesh`, any number of later
calls, each with any joint poses, leave the index buffer, vert_count,
ind_count, the index data held by the mesh object, and the texture coordinate
and colour of every vertex exactly as the first call left them. -/
theorem input_hand_update_mesh_idempotent (g : globals) (hand : handed_)
    (poses : List (Fin 5 → Fin 5 → hand_joint_t)) :
    ((later_mesh_updates (input_hand_update_mesh g hand) hand poses).hand_state hand).mesh.inds
      = ((input_hand_update_mesh g hand).hand_state hand).mesh.inds ∧
    ((later_mesh_updates (input_hand_update_mesh g hand) hand poses).hand_state hand).mesh.vert_count
      = ((input_hand_update_mesh g hand).hand_state hand).mesh.vert_count ∧
    ((later_mesh_updates (input_hand_update_mesh g hand) hand poses).hand_state hand).mesh.ind_count
      = ((input_hand_update_mesh g hand).hand_state hand).mesh.ind_count ∧
    (((later_mesh_updates (input_hand_update_mesh g hand) hand poses).hand_state
        hand).mesh.mesh.map mesh_t.inds)
      = ((input_hand_update_mesh g hand).hand_state hand).mesh.mesh.map mesh_t.inds ∧
    uv_col_of ((later_mesh_updates (input_hand_update_mesh g hand) hand poses).hand_state
        hand).mesh.verts
      = uv_col_of ((input_hand_update_mesh g hand).hand_state hand).mesh.verts := by
  obtain ⟨vs, hvs⟩ := input_hand_update_mesh_verts_some g hand
  exact later_mesh_updates_keep poses (input_hand_update_mesh g hand) hand vs hvs

/-! ## Untracked ticks and the blend factor -/

/-- C11: `input_hand_sim` called with tracked = false leaves all 25 live joints
and the whole blend buffer of the hand as they were; the global state after the
call is the state before with only the palm pose and the state bits of that
hand replaced, so the mesh, the visibility, the other hand and the pose tables
are unchanged as well. -/
theorem input_hand_sim_untracked_frame (quat_slerp : quat → quat → ℚ → quat) (elapsed : ℚ)
    (g : globals) (handedness : handed_) (hand_pos : vec3) (orientation : quat)
    (trigger_pressed grip_pressed : Bool) :
    (∀ f j : Fin 5,
      (input_hand (input_hand_sim quat_slerp elapsed g handedness hand_pos orientation false
          trigger_pressed grip_pressed) handedness).fingers f j
        = (input_hand g handedness).fingers f j) ∧
    (∀ f j : Fin 5,
      ((input_hand_sim quat_slerp elapsed g handedness hand_pos orientation false
          trigger_pressed grip_pressed).hand_state handedness).pose_blend f j
        = (g.hand_state handedness).pose_blend f j) ∧
    input_hand_sim quat_slerp elapsed g handedness hand_pos orientation false
        trigger_pressed grip_pressed
      = g.set_hand handedness
          { g.hand_state handedness with
            info :=
              { (g.hand_state handedness).info with
                palm := ⟨hand_pos, orientation⟩
                state := tracked_state (g.hand_state handedness).info.state false } } := by
  refine ⟨fun f j => ?_, fun f j => ?_, ?_⟩
  · simp only [input_hand, input_hand_sim_untracked]
  · simp only [input_hand_sim_untracked]
  · simp [input_hand_sim]

theorem blend_delta_eq_min (elapsed : ℚ) : blend_delta elapsed = min (elapsed * 30) 1 := by
  unfold blend_delta
  by_cases h : elapsed * 30 > 1
  · simp [h, min_eq_right (le_of_lt h)]
  · simp [h, min_eq_left (not_lt.mp h)]

/-- C12 as stated fails: with elapsed time -1 the blend factor is -30, which is
not clamp(-30, 0, 1) = 0 and does not lie in [0, 1]; the tracked tick blends the
buffer with that factor. -/
theorem input_hand_sim_blend_factor_negative :
    blend_delta (-1) = -30 ∧
    blend_delta (-1) ≠ clamp (-1 * 30) 0 1 ∧
    ¬ (0 ≤ blend_delta (-1)) ∧
    ((input_hand_sim quat_lerp (-1) globals_zero handed_left vec3_zero quat_identity true
        false false).hand_state handed_left).pose_blend
      = blend_step quat_lerp (globals_zero.hand_state handed_left).pose_blend
          globals_zero.input_pose_neutral (-30) := by
  have h : blend_delta (-1) = -30 := by
    rw [blend_delta_eq_min]; norm_num
  refine ⟨h, ?_, ?_, ?_⟩
  · rw [h]; norm_num [clamp]
  · rw [h]; norm_num
  · rw [input_hand_sim_tracked, h]; rfl

/-- C12, amended: for every elapsed time the blend factor `input_hand_sim` passes
to `vec3_lerp` and `quat_slerp` is min(elapsed * 30, 1), which is at most 1; for
every elapsed time that is not negative it equals clamp(elapsed * 30, 0, 1) and
lies in [0, 1]. -/
theorem input_hand_sim_blend_factor (quat_slerp : quat → quat → ℚ → quat) (elapsed : ℚ)
    (g : globals) (handedness : handed_) (hand_pos : vec3) (orientation : quat)
    (trigger_pressed grip_pressed : Bool) :
    (∀ f j : Fin 5,
      ((input_hand_sim quat_slerp elapsed g handedness hand_pos orientation true
          trigger_pressed grip_pressed).hand_state handedness).pose_blend f j
        = { position := vec3_lerp ((g.hand_state handedness).pose_blend f j).position
              (dest_pose g trigger_pressed grip_pressed f j).position (min (elapsed * 30) 1)
            orientation := quat_slerp ((g.hand_state handedness).pose_blend f j).orientation
              (dest_pose g trigger_pressed grip_pressed f j).orientation
              (min (elapsed * 30) 1) }) ∧
    blend_delta elapsed = min (elapsed * 30) 1 ∧
    blend_delta elapsed ≤ 1 ∧
    (0 ≤ elapsed →
      blend_delta elapsed = clamp (elapsed * 30) 0 1 ∧
      0 ≤ blend_delta elapsed ∧ blend_delta elapsed ≤ 1) := by
  have hm := blend_delta_eq_min elapsed
  refine ⟨fun f j => ?_, hm, ?_, fun h0 => ?_⟩
  · rw [input_hand_sim_tracked, hm]; rfl
  · rw [hm]; exact min_le_right _ _
  · have h30 : 0 ≤ elapsed * 30 := by linarith
    have hmin : 0 ≤ min (elapsed * 30) 1 := le_min h30 (by norm_num)
    refine ⟨?_, ?_, ?_⟩
    · rw [hm, clamp, max_eq_right hmin]
    · rw [hm]; exact hmin
    · rw [hm]; exact min_le_right _ _

/-- C12, amended, at concrete inputs: with elapsed time 1/60 s the blend factor
is 1/2 = clamp(1/2, 0, 1). -/
theorem input_hand_sim_blend_factor_witness :
    (0 : ℚ) ≤ 1 / 60 ∧
    blend_delta (1 / 60) = clamp (1 / 60 * 30) 0 1 ∧
    0 ≤ blend_delta (1 / 60) ∧ blend_delta (1 / 60) ≤ 1 :=
  ⟨by norm_num,
    (input_hand_sim_blend_factor quat_lerp (1 / 60) globals_zero handed_left vec3_zero
      quat_identity false false).2.2.2 (by norm_num)⟩

/-! ## Joint radii -/

theorem input_hand_sim_size (qs : quat → quat → ℚ → quat) (el : ℚ) (g : globals)
    (h : handed_) (pos : vec3) (ori : quat) (t gr : Bool) (f j : Fin 5) :
    ((input_hand (input_hand_sim qs el g h pos ori true t gr) h).fingers f j).size
      = hand_finger_size f * hand_joint_size j * 0.25 := by
  rw [input_hand_sim_fingers]
  rfl

/-- C17 as stated fails: after a tracked tick the thumb's metacarpal radius is
strictly larger than the index finger's, and the middle finger's equals the
index finger's, so the index finger's radius is not strictly the largest. -/
theorem input_hand_sim_index_radius_not_largest :
    ((input_hand (input_hand_sim quat_lerp (1 / 30) globals_zero handed_left vec3_zero
        quat_identity true false false) handed_left).fingers hand_finger_index 0).size
      < ((input_hand (input_hand_sim quat_lerp (1 / 30) globals_zero handed_left vec3_zero
          quat_identity true false false) handed_left).fingers hand_finger_thumb 0).size ∧
    ((input_hand (input_hand_sim quat_lerp (1 / 30) globals_zero handed_left vec3_zero
        quat_identity true false false) handed_left).fingers hand_finger_middle 0).size
      = ((input_hand (input_hand_sim quat_lerp (1 / 30) globals_zero handed_left vec3_zero
          quat_identity true false false) handed_left).fingers hand_finger_index 0).size := by
  simp only [input_hand_sim_size]
  norm_num [hand_finger_size, hand_joint_size, hand_finger_index, hand_finger_thumb,
    hand_finger_middle]

/-- C17, amended: in the joint radii a tracked `input_hand_sim` tick assigns,
for every joint index j the thumb's radius is strictly the largest, the index
and middle fingers' radii are equal, and the ring and little fingers' radii are
strictly smaller than the index finger's, the little finger's being the
smallest; every radius is hand_finger_size f * hand_joint_size j * 0.25. -/
theorem input_hand_sim_radius_order (quat_slerp : quat → quat → ℚ → quat) (elapsed : ℚ)
    (g : globals) (handedness : handed_) (hand_pos : vec3) (orientation : quat)
    (trigger_pressed grip_pressed : Bool) (j : Fin 5) :
    let size := fun f : Fin 5 =>
      ((input_hand (input_hand_sim quat_slerp elapsed g handedness hand_pos orientation true
        trigger_pressed grip_pressed) handedness).fingers f j).size
    (∀ f : Fin 5, size f = hand_finger_size f * hand_joint_size j * 0.25) ∧
    size hand_finger_index < size hand_finger_thumb ∧
    size hand_finger_middle = size hand_finger_index ∧
    size hand_finger_ring < size hand_finger_index ∧
    size hand_finger_little < size hand_finger_ring := by
  intro size
  have hs : ∀ f : Fin 5, size f = hand_finger_size f * hand_joint_size j * 0.25 :=
    fun f => input_hand_sim_size quat_slerp elapsed g handedness hand_pos orientation
      trigger_pressed grip_pressed f j
  refine ⟨hs, ?_, ?_, ?_, ?_⟩ <;> rw [hs, hs] <;> fin_cases j <;>
    norm_num [hand_finger_size, hand_joint_size, hand_finger_index, hand_finger_thumb,
      hand_finger_middle, hand_finger_ring, hand_finger_little]

/-! ## Write sequences -/

theorem set_eq_modify_const {α : Type} (l : List α) (n : Nat) (a : α) :
    l.set n a = l.modify (fun _ => a) n := by
  induction l generalizing n with
  | nil => simp
  | cons x l ih =>
    cases n with
    | zero => simp
    | succ n => simp [ih]

theorem put_ind_eq (st : List Nat × Nat) (v : Nat) : put_ind st v = put_write st (fun _ => v) := by
  simp [put_ind, put_write, set_eq_modify_const]

/-- A loop whose body is a sequence of steps is the sequence of the concatenated
bodies. -/
theorem foldl_flatMap_body {σ ι β : Type} (step : σ → β → σ) (g : ι → List β) (l : List ι)
    (s : σ) :
    l.foldl (fun s i => (g i).foldl step s) s = (l.flatMap g).foldl step s := by
  induction l generalizing s with
  | nil => rfl
  | cons i l ih => rw [List.foldl_cons, ih, List.flatMap_cons, List.foldl_append]

theorem foldl_put_ind (vals : List Nat) (st : List Nat × Nat) :
    vals.foldl put_ind st = (vals.map (fun v => fun _ => v)).foldl put_write st := by
  induction vals generalizing st with
  | nil => rfl
  | cons v vals ih => rw [List.foldl_cons, List.map_cons, List.foldl_cons, ih, put_ind_eq]

/-- The cursor after a write sequence. -/
theorem foldl_put_write_cursor {α : Type} (ws : List (α → α)) (l : List α) (c : Nat) :
    (ws.foldl put_write (l, c)).2 = c + ws.length := by
  induction ws generalizing l c with
  | nil => rfl
  | cons w ws ih =>
    rw [List.foldl_cons, put_write, ih, List.length_cons]
    omega

/-- The buffer length after a write sequence. -/
theorem foldl_put_write_length {α : Type} (ws : List (α → α)) (l : List α) (c : Nat) :
    (ws.foldl put_write (l, c)).1.length = l.length := by
  induction ws generalizing l c with
  | nil => rfl
  | cons w ws ih => rw [List.foldl_cons, put_write, ih, List.length_modify]

/-- The cells after a write sequence from cursor `c`: cells below `c` are kept,
and cell `k` at or above `c` gets the update number `k - c`, if there is one. -/
theorem foldl_put_write_getElem? {α : Type} (ws : List (α → α)) (l : List α) (c k : Nat) :
    (ws.foldl put_write (l, c)).1[k]?
      = if k < c then l[k]? else l[k]?.map (ws.getD (k - c) id) := by
  induction ws generalizing l c with
  | nil =>
    simp only [List.foldl_nil, List.getD_nil]
    split <;> simp
  | cons w ws ih =>
    rw [List.foldl_cons, put_write, ih, List.getElem?_modify]
    by_cases h1 : k < c
    · have h2 : k < c + 1 := by omega
      have h3 : c ≠ k := by omega
      simp [h1, h2, h3]
    · by_cases h2 : k = c
      · subst h2
        simp
      · have h3 : ¬ k < c + 1 := by omega
        have h4 : c ≠ k := by omega
        have h5 : k - c = (k - (c + 1)) + 1 := by omega
        simp only [h1, h3, h4, if_false]
        rw [h5, List.getD_cons_succ]
        cases l[k]? <;> simp

/-! ## The mesh loops as write sequences -/

theorem tube_face_eq (start_vert : Nat) (st : List Nat × Nat) (j c : Nat) :
    tube_face start_vert st j c = (tube_values start_vert j c).foldl put_ind st := rfl

theorem finger_inds_eq (st : List Nat × Nat) (f : Nat) :
    finger_inds st f = (finger_values f).foldl put_ind st := by
  simp only [finger_inds, finger_values, tube_face_eq, foldl_flatMap_body, List.foldl_append,
    List.foldl_cons, List.foldl_nil]

/-- The index loop is the sequence of statements `data.inds[ind++] = v` for `v`
running through `index_values`, from cursor 0. -/
theorem build_inds_eq (inds : List Nat) :
    build_inds inds = index_values.foldl put_ind (inds, 0) := by
  have h : finger_inds = fun st f => (finger_values f).foldl put_ind st := by
    funext st f
    exact finger_inds_eq st f
  rw [build_inds, h, foldl_flatMap_body, index_values]

theorem uv_col_joint_eq (st : List vert_t × Nat) (f j : Nat) :
    uv_col_joint st f j = (uv_col_writes f j).foldl put_write st := rfl

/-- The uv and colour loops are the sequence of cell updates
`all_uv_col_writes`, from cursor 0. -/
theorem build_uv_col_eq (verts : List vert_t) :
    build_uv_col verts = all_uv_col_writes.foldl put_write (verts, 0) := by
  simp only [build_uv_col, uv_col_joint_eq, foldl_flatMap_body, all_uv_col_writes]

theorem ring_joint_eq (fingers : Fin 5 → Fin 5 → hand_joint_t) (st : List vert_t × Nat)
    (f j : Fin 5) :
    ring_joint fingers st f j = (ring_writes fingers f j).foldl put_write st := rfl

/-- The per-frame loops are the sequence of cell updates `all_ring_writes`, from
cursor 0. -/
theorem build_rings_eq (fingers : Fin 5 → Fin 5 → hand_joint_t) (verts : List vert_t) :
    build_rings fingers verts = (all_ring_writes fingers).foldl put_write (verts, 0) := by
  simp only [build_rings, ring_joint_eq, foldl_flatMap_body, all_ring_writes]

set_option maxRecDepth 100000 in
theorem index_values_length : index_values.length = 540 := rfl

theorem all_uv_col_writes_length : all_uv_col_writes.length = 100 := rfl

theorem all_ring_writes_length (fingers : Fin 5 → Fin 5 → hand_joint_t) :
    (all_ring_writes fingers).length = 100 := rfl

/-- A sequence of `data.inds[ind++] = v` over a buffer with as many cells as
there are values leaves exactly the values, whatever the buffer held. -/
theorem foldl_put_ind_full (vals l : List Nat) (h : l.length = vals.length) :
    (vals.foldl put_ind (l, 0)).1 = vals := by
  apply List.ext_getElem?
  intro k
  rw [foldl_put_ind, foldl_put_write_getElem?]
  simp only [Nat.not_lt_zero, if_false, Nat.sub_zero]
  by_cases hk : k < vals.length
  · have hl : k < l.length := by omega
    rw [List.getElem?_eq_getElem hl, List.getElem?_eq_getElem hk, Option.map_some',
      List.getD_eq_getElem?_getD, List.getElem?_map, List.getElem?_eq_getElem hk]
    rfl
  · have hl : l.length ≤ k := by omega
    rw [List.getElem?_eq_none hl, List.getElem?_eq_none (by omega)]
    rfl

/-- The index buffer a first call of `input_hand_update_mesh` leaves. -/
theorem input_hand_update_mesh_fresh_inds (g : globals) (hand : handed_)
    (h : (g.hand_state hand).mesh.verts = none) :
    ((input_hand_update_mesh g hand).hand_state hand).mesh.inds = some index_values := by
  rw [input_hand_update_mesh_fresh g hand h]
  show some (build_inds (malloc_inds _)).1 = some index_values
  rw [build_inds_eq, foldl_put_ind_full]
  rw [index_values_length, malloc_inds, List.length_replicate]
  rfl

/-- The vertex buffer a first call of `input_hand_update_mesh` leaves. -/
theorem input_hand_update_mesh_fresh_verts (g : globals) (hand : handed_)
    (h : (g.hand_state hand).mesh.verts = none) :
    ((input_hand_update_mesh g hand).hand_state hand).mesh.verts
      = some (build_rings (g.hand_state hand).info.fingers
          (build_uv_col (malloc_verts 100)).1).1 := by
  rw [input_hand_update_mesh_fresh g hand h]
  rfl

set_option maxRecDepth 100000 in
theorem all_uv_col_writes_getD (f j : Fin 5) (k : Fin 4) :
    all_uv_col_writes.getD (4 * (5 * f.val + j.val) + k.val) id
      = (uv_col_writes f.val j.val).getD k.val id := by
  fin_cases f <;> fin_cases j <;> fin_cases k <;> rfl

set_option maxRecDepth 100000 in
theorem all_ring_writes_getD (fingers : Fin 5 → Fin 5 → hand_joint_t) (f j : Fin 5)
    (k : Fin 4) :
    (all_ring_writes fingers).getD (4 * (5 * f.val + j.val) + k.val) id
      = (ring_writes fingers f j).getD k.val id := by
  fin_cases f <;> fin_cases j <;> fin_cases k <;> rfl

/-! ## Index topology -/

set_option maxRecDepth 100000 in
theorem index_values_tube (f : Fin 5) (j c : Fin 4) :
    (index_values.drop (108 * f.val + 6 + 24 * j.val + 6 * c.val)).take 6
      = [20 * f.val + 4 * j.val + c.val,
         20 * f.val + 4 * (j.val + 1) + c.val,
         20 * f.val + 4 * (j.val + 1) + (c.val + 1) % 4,
         20 * f.val + 4 * j.val + c.val,
         20 * f.val + 4 * (j.val + 1) + (c.val + 1) % 4,
         20 * f.val + 4 * j.val + (c.val + 1) % 4] := by
  revert f j c
  decide

set_option maxRecDepth 100000 in
theorem index_values_caps (f : Fin 5) :
    (index_values.drop (108 * f.val)).take 6
      = [20 * f.val, 20 * f.val + 1, 20 * f.val + 2,
         20 * f.val, 20 * f.val + 2, 20 * f.val + 3] ∧
    (index_values.drop (108 * f.val + 102)).take 6
      = [20 * f.val + 18, 20 * f.val + 17, 20 * f.val + 16,
         20 * f.val + 19, 20 * f.val + 18, 20 * f.val + 16] := by
  revert f
  decide

/-- C14: in the index buffer a first call of `input_hand_update_mesh` builds, for
every finger f < 5, ring j < 4 and corner c < 4, the six cells from offset
108 f + 6 + 24 j + 6 c hold the triangles (curr1, next1, next2) and (curr1,
next2, curr2) with curr1 = 20f + 4j + c, next1 = 20f + 4(j+1) + c, curr2 = 20f +
4j + (c+1) mod 4, next2 = 20f + 4(j+1) + (c+1) mod 4; the three indices of each
triangle are pairwise distinct, and all four vertices lie in [20f, 20f + 20),
the vertices of finger f. -/
theorem input_hand_update_mesh_tube_topology (g : globals) (hand : handed_)
    (h_fresh : (g.hand_state hand).mesh.verts = none) (f : Fin 5) (j c : Fin 4) :
    let buf := (((input_hand_update_mesh g hand).hand_state hand).mesh.inds).getD []
    let curr1 := 20 * f.val + 4 * j.val + c.val
    let next1 := 20 * f.val + 4 * (j.val + 1) + c.val
    let curr2 := 20 * f.val + 4 * j.val + (c.val + 1) % 4
    let next2 := 20 * f.val + 4 * (j.val + 1) + (c.val + 1) % 4
    (buf.drop (108 * f.val + 6 + 24 * j.val + 6 * c.val)).take 6
      = [curr1, next1, next2, curr1, next2, curr2] ∧
    (curr1 ≠ next1 ∧ next1 ≠ next2 ∧ curr1 ≠ next2) ∧
    (curr1 ≠ next2 ∧ next2 ≠ curr2 ∧ curr1 ≠ curr2) ∧
    (20 * f.val ≤ curr1 ∧ curr1 < 20 * f.val + 20) ∧
    (20 * f.val ≤ next1 ∧ next1 < 20 * f.val + 20) ∧
    (20 * f.val ≤ curr2 ∧ curr2 < 20 * f.val + 20) ∧
    (20 * f.val ≤ next2 ∧ next2 < 20 * f.val + 20) := by
  intro buf curr1 next1 curr2 next2
  have hb : buf = index_values := by
    simp only [buf, input_hand_update_mesh_fresh_inds g hand h_fresh, Option.getD_some]
  have hj := j.isLt
  have hc := c.isLt
  refine ⟨?_, ?_, ?_, ?_, ?_, ?_, ?_⟩
  · rw [hb]; exact index_values_tube f j c
  all_goals simp only [curr1, next1, curr2, next2]
  all_goals omega

/-- C14 at concrete inputs: from the zero start state, the face of finger 2,
ring 1, corner 3 sits at offset 264 and is (47, 51, 48), (47, 48, 44). -/
theorem input_hand_update_mesh_tube_topology_witness :
    (globals_zero.hand_state handed_left).mesh.verts = none ∧
    (((((input_hand_update_mesh globals_zero handed_left).hand_state
        handed_left).mesh.inds).getD []).drop 264).take 6 = [47, 51, 48, 47, 48, 44] :=
  ⟨rfl, (input_hand_update_mesh_tube_topology globals_zero handed_left rfl 2 1 3).1⟩

/-- C15 as stated fails: in the index buffer built from the zero start state,
the first end-cap triangle of finger 0 is (18, 17, 16), which does not contain
the last vertex 19 of the finger. -/
theorem input_hand_update_mesh_end_cap_not_fan_from_last :
    (((((input_hand_update_mesh globals_zero handed_left).hand_state
        handed_left).mesh.inds).getD []).drop 102).take 3 = [18, 17, 16] ∧
    19 ∉ (((((input_hand_update_mesh globals_zero handed_left).hand_state
        handed_left).mesh.inds).getD []).drop 102).take 3 := by
  have h := input_hand_update_mesh_fresh_inds globals_zero handed_left rfl
  have hc := (index_values_caps 0).2
  have h3 : (index_values.drop 102).take 3 = [18, 17, 16] := by
    have := congrArg (List.take 3) hc
    simpa [List.take_take] using this
  rw [h, Option.getD_some, h3]
  exact ⟨rfl, by decide⟩

/-- C15, amended: in the index buffer a first call of `input_hand_update_mesh`
builds, for every finger f the first ring is capped by the two triangles (20f,
20f+1, 20f+2) and (20f, 20f+2, 20f+3) at offset 108 f, a fan from the first
vertex 20f of the finger that uses exactly the four vertices of the first ring,
and the last ring is capped by the two triangles (20f+18, 20f+17, 20f+16) and
(20f+19, 20f+18, 20f+16) at offset 108 f + 102, which use exactly the four
vertices of the last ring and form a fan from 20f+16, the first vertex of the
last ring; the last vertex 20f+19 is in the second of them only. -/
theorem input_hand_update_mesh_cap_topology (g : globals) (hand : handed_)
    (h_fresh : (g.hand_state hand).mesh.verts = none) (f : Fin 5) :
    let buf := (((input_hand_update_mesh g hand).hand_state hand).mesh.inds).getD []
    (buf.drop (108 * f.val)).take 6
      = [20 * f.val, 20 * f.val + 1, 20 * f.val + 2,
         20 * f.val, 20 * f.val + 2, 20 * f.val + 3] ∧
    (buf.drop (108 * f.val + 102)).take 6
      = [20 * f.val + 18, 20 * f.val + 17, 20 * f.val + 16,
         20 * f.val + 19, 20 * f.val + 18, 20 * f.val + 16] ∧
    20 * f.val + 19 ∉ [20 * f.val + 18, 20 * f.val + 17, 20 * f.val + 16] := by
  intro buf
  have hb : buf = index_values := by
    simp only [buf, input_hand_update_mesh_fresh_inds g hand h_fresh, Option.getD_some]
  rw [hb]
  refine ⟨(index_values_caps f).1, (index_values_caps f).2, ?_⟩
  simp

/-- C15, amended, at concrete inputs: from the zero start state, the caps of
finger 1 are (20, 21, 22), (20, 22, 23) at offset 108 and (38, 37, 36), (39, 38,
36) at offset 210. -/
theorem input_hand_update_mesh_cap_topology_witness :
    (globals_zero.hand_state handed_right).mesh.verts = none ∧
    (((((input_hand_update_mesh globals_zero handed_right).hand_state
        handed_right).mesh.inds).getD []).drop 108).take 6 = [20, 21, 22, 20, 22, 23] ∧
    (((((input_hand_update_mesh globals_zero handed_right).hand_state
        handed_right).mesh.inds).getD []).drop 210).take 6 = [38, 37, 36, 39, 38, 36] :=
  ⟨rfl, (input_hand_update_mesh_cap_topology globals_zero handed_right rfl 1).1,
    (input_hand_update_mesh_cap_topology globals_zero handed_right rfl 1).2.1⟩

/-! ## Vertex attributes -/

theorem malloc_verts_getElem? (k : Nat) (h : k < 100) :
    (malloc_verts 100)[k]? = some ⟨vec3_zero, vec3_zero, ⟨0, 0⟩, ⟨0, 0, 0, 0⟩⟩ := by
  rw [malloc_verts, List.getElem?_replicate_of_lt h]

theorem uv_col_writes_eq (f j : Fin 5) :
    uv_col_writes f.val j.val =
      [fun vt => { vt with uv := ⟨0, uv_v f j⟩, col := ⟨255, 255, 255, 255⟩ },
       fun vt => { vt with uv := ⟨1 / 2, uv_v f j⟩, col := ⟨255, 255, 255, 255⟩ },
       fun vt => { vt with uv := ⟨1, uv_v f j⟩, col := ⟨255, 255, 255, 255⟩ },
       fun vt => { vt with uv := ⟨1 / 2, uv_v f j⟩, col := ⟨255, 255, 255, 255⟩ }] := by
  have hy : (if f.val = 0
      then max (0 : ℚ) (((j.val : ℤ) - 1 : ℤ) : ℚ) / ((SK_FINGERJOINTS - 2 : ℕ) : ℚ)
      else (j.val : ℚ) / ((SK_FINGERJOINTS - 1 : ℕ) : ℚ)) = uv_v f j := by
    unfold uv_v
    by_cases h0 : f.val = 0
    · rw [if_pos h0, if_pos h0]
      norm_num [SK_FINGERJOINTS]
    · rw [if_neg h0, if_neg h0]
      norm_num [SK_FINGERJOINTS]
  have hhalf : (0.5 : ℚ) = 1 / 2 := by norm_num
  simp only [uv_col_writes, hy, hhalf]

/-- The texture coordinate and colour of a vertex after a first call of
`input_hand_update_mesh` are those the uv and colour loops gave it. -/
theorem input_hand_update_mesh_fresh_uv_col (g : globals) (hand : handed_)
    (h : (g.hand_state hand).mesh.verts = none) (f j : Fin 5) (k : Fin 4) :
    ((((input_hand_update_mesh g hand).hand_state hand).mesh.verts).getD [])[
        4 * (5 * f.val + j.val) + k.val]?.map (fun v => (v.uv, v.col))
      = some (((uv_col_writes f.val j.val).getD k.val id
          ⟨vec3_zero, vec3_zero, ⟨0, 0⟩, ⟨0, 0, 0, 0⟩⟩).uv,
        ((uv_col_writes f.val j.val).getD k.val id
          ⟨vec3_zero, vec3_zero, ⟨0, 0⟩, ⟨0, 0, 0, 0⟩⟩).col) := by
  have hk : 4 * (5 * f.val + j.val) + k.val < 100 := by
    have := f.isLt; have := j.isLt; have := k.isLt; omega
  rw [input_hand_update_mesh_fresh_verts g hand h, Option.getD_some, ← List.getElem?_map,
    build_rings_uv_col, List.getElem?_map, build_uv_col_eq, foldl_put_write_getElem?,
    malloc_verts_getElem? _ hk]
  simp only [Nat.not_lt_zero, if_false, Nat.sub_zero, Option.map_some']
  rw [all_uv_col_writes_getD]

theorem uv_v_bounds (f j : Fin 5) : 0 ≤ uv_v f j ∧ uv_v f j ≤ 1 := by
  have hj : (j.val : ℚ) ≤ 4 := by
    have := j.isLt
    exact_mod_cast (by omega : j.val ≤ 4)
  have hj0 : (0 : ℚ) ≤ (j.val : ℚ) := Nat.cast_nonneg _
  unfold uv_v
  split
  · constructor
    · exact div_nonneg (le_max_left _ _) (by norm_num)
    · rw [div_le_one (by norm_num)]
      exact max_le (by norm_num) (by linarith)
  · constructor
    · exact div_nonneg hj0 (by norm_num)
    · rw [div_le_one (by norm_num)]
      exact hj

theorem uv_v_mono (f j j2 : Fin 5) (h : j ≤ j2) : uv_v f j ≤ uv_v f j2 := by
  have hj : (j.val : ℚ) ≤ (j2.val : ℚ) := by exact_mod_cast h
  unfold uv_v
  split
  · exact div_le_div_of_nonneg_right (max_le_max (le_refl _) (by linarith)) (by norm_num)
  · exact div_le_div_of_nonneg_right hj (by norm_num)

theorem uv_v_ends (f : Fin 5) : uv_v f 0 = 0 ∧ uv_v f 4 = 1 := by
  have h4 : ((4 : Fin 5).val : ℚ) = 4 := by
    have : (4 : Fin 5).val = 4 := rfl
    rw [this]; norm_num
  unfold uv_v
  constructor <;> split <;> norm_num [h4]

/-- C16: after a first call of `input_hand_update_mesh`, for every finger f,
joint j and ring corner k, vertex 4 * (5 f + j) + k has u = [0, 1/2, 1, 1/2][k],
v = j / 4 for f >= 1 and v = max(0, j - 1) / 3 for the thumb, and the colour
(255, 255, 255, 255); v lies in [0, 1], is non-decreasing in j, is 0 at joint 0
and 1 at joint 4. -/
theorem input_hand_update_mesh_uv_layout (g : globals) (hand : handed_)
    (h_fresh : (g.hand_state hand).mesh.verts = none) (f j : Fin 5) (k : Fin 4) :
    ((((input_hand_update_mesh g hand).hand_state hand).mesh.verts).getD [])[
        4 * (5 * f.val + j.val) + k.val]?.map (fun v => (v.uv, v.col))
      = some (⟨uv_u k, uv_v f j⟩, ⟨255, 255, 255, 255⟩) ∧
    uv_u k = ![0, 1 / 2, 1, 1 / 2] k ∧
    uv_v f j = (if f.val = 0 then max 0 ((j.val : ℚ) - 1) / 3 else (j.val : ℚ) / 4) ∧
    0 ≤ uv_v f j ∧ uv_v f j ≤ 1 ∧
    (∀ j2 : Fin 5, j ≤ j2 → uv_v f j ≤ uv_v f j2) ∧
    uv_v f 0 = 0 ∧ uv_v f 4 = 1 := by
  refine ⟨?_, rfl, rfl, (uv_v_bounds f j).1, (uv_v_bounds f j).2, fun j2 h => uv_v_mono f j j2 h,
    (uv_v_ends f).1, (uv_v_ends f).2⟩
  rw [input_hand_update_mesh_fresh_uv_col g hand h_fresh, uv_col_writes_eq]
  fin_cases k <;> simp [uv_u]

/-- C16 at concrete inputs: from the zero start state, vertex 4 * (5 * 0 + 2) + 1
= 9, corner 1 of the thumb's joint 2, gets uv = (1/2, 1/3) and the colour (255,
255, 255, 255). -/
theorem input_hand_update_mesh_uv_layout_witness :
    (globals_zero.hand_state handed_left).mesh.verts = none ∧
    ((((input_hand_update_mesh globals_zero handed_left).hand_state
        handed_left).mesh.verts).getD [])[9]?.map (fun v => (v.uv, v.col))
      = some (⟨1 / 2, 1 / 3⟩, ⟨255, 255, 255, 255⟩) := by
  refine ⟨rfl, ?_⟩
  have h := (input_hand_update_mesh_uv_layout globals_zero handed_left rfl 0 2 1).1
  have hu : uv_u 1 = 1 / 2 := rfl
  have hv : uv_v 0 2 = 1 / 3 := by
    have h2 : ((2 : Fin 5).val : ℚ) = 2 := by
      have : (2 : Fin 5).val = 2 := rfl
      rw [this]; norm_num
    norm_num [uv_v, h2]
  rw [hu, hv] at h
  exact h

/-! ## Ring vertices -/

theorem build_uv_col_getElem? (k : Nat) (h : k < 100) :
    ∃ v, (build_uv_col (malloc_verts 100)).1[k]? = some v := by
  rw [build_uv_col_eq, foldl_put_write_getElem?, malloc_verts_getElem? _ h]
  simp

/-- The normal and the position of a vertex after a first call of
`input_hand_update_mesh`: the normal is the one the per-frame loop computes for
that corner, the position is the joint centre plus that normal times the scaled
radius. -/
theorem input_hand_update_mesh_fresh_ring (g : globals) (hand : handed_)
    (h : (g.hand_state hand).mesh.verts = none) (f j : Fin 5) (k : Fin 4) :
    ((((input_hand_update_mesh g hand).hand_state hand).mesh.verts).getD [])[
        4 * (5 * f.val + j.val) + k.val]?.map (fun v => (v.norm, v.pos))
      = some ((ring_normals (g.hand_state hand).info.fingers f j).getD k.val vec3_zero,
          ((g.hand_state hand).info.fingers f j).position
            + (ring_normals (g.hand_state hand).info.fingers f j).getD k.val vec3_zero
              * ring_scale (g.hand_state hand).info.fingers f j) := by
  have hk : 4 * (5 * f.val + j.val) + k.val < 100 := by
    have := f.isLt; have := j.isLt; have := k.isLt; omega
  obtain ⟨v, hv⟩ := build_uv_col_getElem? _ hk
  rw [input_hand_update_mesh_fresh_verts g hand h, Option.getD_some, build_rings_eq,
    foldl_put_write_getElem?, hv]
  simp only [Nat.not_lt_zero, if_false, Nat.sub_zero, Option.map_some']
  rw [all_ring_writes_getD]
  fin_cases k <;> rfl

/-- For a joint with a unit orientation, each of the four normals the per-frame
loop stores has squared length 2 * SK_SQRT2 ^ 2. -/
theorem ring_normals_length_sq (fingers : Fin 5 → Fin 5 → hand_joint_t) (f j : Fin 5)
    (k : Fin 4)
    (h_unit : (fingers f j).orientation.x ^ 2 + (fingers f j).orientation.y ^ 2
      + (fingers f j).orientation.z ^ 2 + (fingers f j).orientation.w ^ 2 = 1) :
    vec3_magnitude_sq ((ring_normals fingers f j).getD k.val vec3_zero)
      = 2 * SK_SQRT2 ^ 2 := by
  fin_cases k <;>
    simp only [ring_normals, vec3_magnitude_sq, quat_rotate_def, quat.rotate, quat.mul,
      quat.conj, vec3_right, vec3_up, vec3_sub_def, vec3_add_def, vec3_scale_def, vec3_neg_def,
      List.getD_cons_zero, List.getD_cons_succ, Fin.zero_eta, Fin.mk_one, Fin.reduceFinMk,
      Fin.val_zero, Fin.val_one, Fin.val_two, Fin.isValue] <;>
    linear_combination
      (2 * SK_SQRT2 ^ 2 * ((fingers f j).orientation.x ^ 2 + (fingers f j).orientation.y ^ 2
        + (fingers f j).orientation.z ^ 2 + (fingers f j).orientation.w ^ 2 + 1)) * h_unit

theorem two_SK_SQRT2_sq : (3.9 : ℚ) < 2 * SK_SQRT2 ^ 2 ∧ 2 * SK_SQRT2 ^ 2 ≠ 1 := by
  constructor <;> norm_num [SK_SQRT2]

/-- C13, the code at the failing input: a hand whose joints all sit at the origin
with the identity orientation and radius 1. After `input_hand_update_mesh`,
vertex 20 (finger 1, joint 0, corner 0), whose scaled radius is 1, holds the
normal (-SK_SQRT2, SK_SQRT2, 0) and the same vector as position: the stored
normal is (up - right) * sqrt 2 and not (up - right) / sqrt 2, its squared
length is 2 * SK_SQRT2 ^ 2, above 3.9 and not 1, and the vertex lies at that
squared distance from the joint centre and not at the scaled radius. -/
theorem input_hand_update_mesh_normal_not_unit :
    ((((input_hand_update_mesh (globals_zero.with_hand handed_left hand_unit_joints)
        handed_left).hand_state handed_left).mesh.verts).getD [])[20]?.map
          (fun v => (v.norm, v.pos))
      = some (⟨-SK_SQRT2, SK_SQRT2, 0⟩, ⟨-SK_SQRT2, SK_SQRT2, 0⟩) ∧
    ring_scale hand_unit_joints.fingers 1 0 = 1 ∧
    (hand_unit_joints.fingers 1 0).position = ⟨0, 0, 0⟩ ∧
    vec3_magnitude_sq ⟨-SK_SQRT2, SK_SQRT2, 0⟩ = 2 * SK_SQRT2 ^ 2 ∧
    (3.9 : ℚ) < 2 * SK_SQRT2 ^ 2 ∧
    2 * SK_SQRT2 ^ 2 ≠ 1 := by
  have hf : ((globals_zero.with_hand handed_left hand_unit_joints).hand_state
      handed_left).mesh.verts = none := by
    rw [with_hand_mesh]; rfl
  have h := input_hand_update_mesh_fresh_ring
    (globals_zero.with_hand handed_left hand_unit_joints) handed_left hf 1 0 0
  rw [with_hand_info] at h
  have hn : (ring_normals hand_unit_joints.fingers 1 0).getD ((0 : Fin 4) : Nat) vec3_zero
      = ⟨-SK_SQRT2, SK_SQRT2, 0⟩ := by
    simp [ring_normals, hand_unit_joints, quat.rotate, quat.mul, quat.conj, quat_identity,
      vec3_right, vec3_up]
  have hs : ring_scale hand_unit_joints.fingers 1 0 = 1 := by
    simp [ring_scale, hand_unit_joints]
  rw [hn, hs] at h
  refine ⟨?_, hs, rfl, ?_, two_SK_SQRT2_sq.1, two_SK_SQRT2_sq.2⟩
  · rw [show (20 : Nat) = 4 * (5 * ((1 : Fin 5) : Nat) + ((0 : Fin 5) : Nat)) + ((0 : Fin 4) : Nat)
      from rfl, h]
    simp [hand_unit_joints, vec3_zero]
  · simp only [vec3_magnitude_sq]
    ring

/-! ## Bounds of the mesh build -/

set_option maxRecDepth 100000 in
theorem finger_values_range (f : Fin 5) :
    ∀ v ∈ finger_values f.val, 20 * f.val ≤ v ∧ v < 20 * f.val + 20 ∧ v < 100 := by
  revert f
  decide

theorem foldl_put_ind_cursor (vals : List Nat) (l : List Nat) (c : Nat) :
    (vals.foldl put_ind (l, c)).2 = c + vals.length := by
  rw [foldl_put_ind, foldl_put_write_cursor, List.length_map]

/-- C18: the index loop of `input_hand_update_mesh` is the sequence of
statements `data.inds[ind++] = v` for the 540 values of `index_values`, from
cursor 0, so the statement number i writes cell i and the cursor ends at 540 =
ind_count, the size of the allocation; every value written for finger f lies in
[20f, 20f + 20) and is below vert_count = 100; the uv and colour loops and the
per-frame loops are each a sequence of 100 cell updates from cursor 0, so update
number i writes vertex cell i and the cursor ends at 100 = vert_count, the size
of the vertex allocation. -/
theorem input_hand_update_mesh_in_bounds (g : globals) (hand : handed_)
    (h_fresh : (g.hand_state hand).mesh.verts = none) :
    ((∀ inds : List Nat, build_inds inds = index_values.foldl put_ind (inds, 0)) ∧
      index_values = (List.range 5).flatMap finger_values ∧
      index_values.length = 540 ∧
      (∀ (inds : List Nat) (i : Nat),
        ((index_values.take i).foldl put_ind (inds, 0)).2 = min i 540) ∧
      (∀ inds : List Nat, (build_inds inds).2 = 540) ∧
      ((input_hand_update_mesh g hand).hand_state hand).mesh.ind_count = 540 ∧
      ((input_hand_update_mesh g hand).hand_state hand).mesh.inds = some index_values ∧
      (∀ f : Fin 5, ∀ v ∈ finger_values f.val,
        20 * f.val ≤ v ∧ v < 20 * f.val + 20 ∧ v < 100)) ∧
    ((∀ verts : List vert_t,
        build_uv_col verts = all_uv_col_writes.foldl put_write (verts, 0)) ∧
      all_uv_col_writes.length = 100 ∧
      (∀ (verts : List vert_t) (i : Nat),
        ((all_uv_col_writes.take i).foldl put_write (verts, 0)).2 = min i 100) ∧
      (∀ verts : List vert_t, (build_uv_col verts).2 = 100)) ∧
    ((∀ (fingers : Fin 5 → Fin 5 → hand_joint_t) (verts : List vert_t),
        build_rings fingers verts = (all_ring_writes fingers).foldl put_write (verts, 0)) ∧
      (∀ fingers : Fin 5 → Fin 5 → hand_joint_t, (all_ring_writes fingers).length = 100) ∧
      (∀ (fingers : Fin 5 → Fin 5 → hand_joint_t) (verts : List vert_t) (i : Nat),
        (((all_ring_writes fingers).take i).foldl put_write (verts, 0)).2 = min i 100) ∧
      (∀ (fingers : Fin 5 → Fin 5 → hand_joint_t) (verts : List vert_t),
        (build_rings fingers verts).2 = 100)) ∧
    ((input_hand_update_mesh g hand).hand_state hand).mesh.vert_count = 100 ∧
    ∃ verts, ((input_hand_update_mesh g hand).hand_state hand).mesh.verts = some verts ∧
      verts.length = 100 := by
  refine ⟨⟨build_inds_eq, rfl, index_values_length, ?_, ?_, ?_,
      input_hand_update_mesh_fresh_inds g hand h_fresh, finger_values_range⟩,
    ⟨build_uv_col_eq, all_uv_col_writes_length, ?_, ?_⟩,
    ⟨build_rings_eq, all_ring_writes_length, ?_, ?_⟩, ?_, ?_⟩
  · intro inds i
    rw [foldl_put_ind_cursor, List.length_take, index_values_length, Nat.zero_add]
  · intro inds
    rw [build_inds_eq, foldl_put_ind_cursor, index_values_length]
  · rw [input_hand_update_mesh_fresh g hand h_fresh]; rfl
  · intro verts i
    rw [foldl_put_write_cursor, List.length_take, all_uv_col_writes_length, Nat.zero_add]
  · intro verts
    rw [build_uv_col_eq, foldl_put_write_cursor, all_uv_col_writes_length]
  · intro fingers verts i
    rw [foldl_put_write_cursor, List.length_take, all_ring_writes_length, Nat.zero_add]
  · intro fingers verts
    rw [build_rings_eq, foldl_put_write_cursor, all_ring_writes_length]
  · rw [input_hand_update_mesh_fresh g hand h_fresh]; rfl
  · refine ⟨_, input_hand_update_mesh_fresh_verts g hand h_fresh, ?_⟩
    rw [build_rings_eq, foldl_put_write_length, build_uv_col_eq, foldl_put_write_length,
      malloc_verts, List.length_replicate]

/-- C18 at concrete inputs: from the zero start state the index buffer built is
`index_values` and the value 45, written for finger 2, lies in [40, 60). -/
theorem input_hand_update_mesh_in_bounds_witness :
    (globals_zero.hand_state handed_left).mesh.verts = none ∧
    ((input_hand_update_mesh globals_zero handed_left).hand_state handed_left).mesh.inds
      = some index_values ∧
    (20 * 2 ≤ 45 ∧ 45 < 20 * 2 + 20 ∧ 45 < 100) :=
  ⟨rfl, (input_hand_update_mesh_in_bounds globals_zero handed_left rfl).1.2.2.2.2.2.2.1,
    (input_hand_update_mesh_in_bounds globals_zero handed_left rfl).1.2.2.2.2.2.2.2 2 45
      (by decide)⟩

end sk

/-! ## Window resize -/

/-- The guard of `win32_resize`: when either dimension matches the stored one,
nothing changes. -/
theorem win32_resize_guard (s : win32_globals) (width height : Int)
    (h : width = s.d3d_screen_width ∨ height = s.d3d_screen_height) :
    win32_resize s width height = s := by
  unfold win32_resize
  rw [if_pos h]

/-- Past the guard of `win32_resize`, when both dimensions differ from the stored
ones, the stored size becomes the requested one. -/
theorem win32_resize_stores (s : win32_globals) (width height : Int)
    (hw : width ≠ s.d3d_screen_width) (hh : height ≠ s.d3d_screen_height) :
    (win32_resize s width height).d3d_screen_width = width ∧
    (win32_resize s width height).d3d_screen_height = height := by
  unfold win32_resize
  rw [if_neg (by simp [hw, hh])]
  cases s.win32_swapchain <;> exact ⟨rfl, rfl⟩

/-- C19, the code at the failing input: with a stored size of 640 x 480,
`win32_resize(640, 600)` returns at the guard `width == d3d_screen_width ||
height == d3d_screen_height` and changes nothing, so the stored height stays 480
and not the requested 600, although the requested size differs from the stored
one; the same happens for `win32_resize(800, 480)`, and with a swap chain
present its buffers keep their size. -/
theorem win32_resize_ignores_one_sided_change :
    win32_resize ⟨640, 480, none⟩ 640 600 = ⟨640, 480, none⟩ ∧
    (win32_resize ⟨640, 480, none⟩ 640 600).d3d_screen_height ≠ 600 ∧
    win32_resize ⟨640, 480, none⟩ 800 480 = ⟨640, 480, none⟩ ∧
    (win32_resize ⟨640, 480, none⟩ 800 480).d3d_screen_width ≠ 800 ∧
    win32_resize ⟨640, 480, some ⟨640, 480⟩⟩ 640 600 = ⟨640, 480, some ⟨640, 480⟩⟩ ∧
    win32_resize ⟨640, 480, some ⟨640, 480⟩⟩ 800 600 = ⟨800, 600, some ⟨800, 600⟩⟩ := by
  decide
